import Mathlib

/-!
Shallow embedding of the Conversation & Generation Orchestrator of the
JavaGoat chat application (assets/modules/chat.js, image.js, utils.js),
together with theorems checking the natural-language specification against
the code.

Modelling conventions:
* JavaScript strings are modelled by Lean `String`; the handful of string
  primitives the code uses (`trim`, `split('\n\n')`, `startsWith`,
  `substring`) are given explicit character-level definitions below so that
  theorems can reason about them by list induction.
* `crypto.randomUUID()` is modelled by a fresh-id counter `nextId` threaded
  through the state; uniqueness of generated ids becomes the invariant that
  all stored ids are below the counter.
* `Date.now()` timestamps are omitted: no verified property mentions time.
* Side effects that leave the orchestrator (toasts, HTTP requests, storage
  saves) are recorded in an ordered `Effect` list; DOM rendering calls and
  `log` calls are not modelled.
* The outcome of each `fetch` (and of the sanitizer, which runs regexes the
  claims never inspect) is supplied by an explicit oracle argument, so each
  orchestrator function is a total function of its inputs.
* A thrown JavaScript exception that escapes a function is modelled
  explicitly in that function's result type; in particular `generateImage`
  always rejects (its `finally` block reads the non-existent `Chat.STATE`
  export, see `chatStateTypeErrorMsg` and `generateImage`), and its caller's
  `catch`/`finally` handle the rejection.
-/

/-! ## Character-level string primitives (models of the JS built-ins) -/

/-- Model of `String.prototype.trim`: the whitespace characters stripped
from both ends. -/
def isWsChar (c : Char) : Bool :=
  c == ' ' || c == '\t' || c == '\n' || c == '\r'

/-- Drop leading whitespace from a character list. -/
def dropWsLead : List Char → List Char
  | [] => []
  | c :: cs => if isWsChar c then dropWsLead cs else c :: cs

/-- Model of `String.prototype.trim`. -/
def jsTrim (s : String) : String :=
  ⟨(dropWsLead (dropWsLead s.data.reverse).reverse)⟩

/-- Does the character list `l` begin with the character list `p`? -/
def listLeads : List Char → List Char → Bool
  | [], _ => true
  | _ :: _, [] => false
  | p :: ps, c :: cs => p == c && listLeads ps cs

/-- Model of `String.prototype.startsWith`. -/
def jsStarts (s pre : String) : Bool :=
  listLeads pre.data s.data

/-- Model of `String.prototype.substring(n)` (drop the first `n` chars). -/
def jsDrop (s : String) (n : Nat) : String :=
  ⟨s.data.drop n⟩

/-- Model of `String.prototype.substring(0, n)` (take the first `n` chars). -/
def jsTake (s : String) (n : Nat) : String :=
  ⟨s.data.take n⟩

/-- Model of `String.prototype.length`. -/
def jsLen (s : String) : Nat := s.data.length

/-- Model of `String.prototype.split('\n\n')` at character level: split on
each non-overlapping occurrence of two consecutive newline characters,
scanning left to right. -/
def splitSep : List Char → List (List Char)
  | [] => [[]]
  | [c] => [[c]]
  | c :: d :: rest =>
    if c = '\n' ∧ d = '\n' then [] :: splitSep rest
    else
      match splitSep (d :: rest) with
      | [] => [[c]]
      | h :: t => (c :: h) :: t

/-- Model of `chunk.split('\n\n')`. -/
def jsSplitEvents (s : String) : List String :=
  (splitSep s.data).map (fun l => ⟨l⟩)

/-- Concatenation of a list of strings (model of repeated `+=`). -/
def joinAll : List String → String
  | [] => ""
  | s :: rest => s ++ joinAll rest

/-! ## A JSON value model and a parser for the subset the provider emits

`JSON.parse` is a JS built-in; the payloads the stream carries are objects,
arrays, strings, integers, booleans and `null`.  The parser below covers
that subset (string escapes `\" \\ \/ \n \t \r`, integer numerals); on
anything else it fails, which the caller treats exactly like a `JSON.parse`
exception (the event is skipped). -/

inductive Json where
  | null : Json
  | bool : Bool → Json
  | num : Int → Json
  | str : String → Json
  | arr : List Json → Json
  | obj : List (String × Json) → Json
  deriving Repr

/-- Is this JSON value `null`? (structural test of `x == null`). -/
def Json.isNull : Json → Bool
  | .null => true
  | _ => false

/-- Skip JSON whitespace. -/
def skipWs : List Char → List Char
  | [] => []
  | c :: cs => if isWsChar c then skipWs cs else c :: cs

/-- Decode one escape character of a JSON string literal. -/
def escChar (e : Char) : Option Char :=
  if e = '"' then some '"'
  else if e = '\\' then some '\\'
  else if e = '/' then some '/'
  else if e = 'n' then some '\n'
  else if e = 't' then some '\t'
  else if e = 'r' then some '\r'
  else none

/-- Parse the body of a JSON string literal (after the opening quote). -/
def parseStrBody : List Char → List Char → Option (String × List Char)
  | [], _ => none
  | '"' :: cs, acc => some (⟨acc.reverse⟩, cs)
  | '\\' :: e :: cs2, acc =>
    match escChar e with
    | some ec => parseStrBody cs2 (ec :: acc)
    | none => none
  | ['\\'], _ => none
  | c :: cs, acc => parseStrBody cs (c :: acc)

/-- Parse a run of decimal digits (at least one). -/
def parseDigits : List Char → Nat → Bool → Option (Nat × List Char)
  | [], acc, seen => if seen then some (acc, []) else none
  | c :: cs, acc, seen =>
    if c.isDigit then parseDigits cs (acc * 10 + (c.toNat - 48)) true
    else if seen then some (acc, c :: cs) else none

/-- Parser mode: a whole value, the items of an array after `[` or a comma,
or the fields of an object after `{` or a comma (`first` allows an
immediately closing bracket). -/
inductive PMode where
  | val : PMode
  | arrItems : Bool → PMode
  | objItems : Bool → PMode

/-- Fuel-indexed recursive-descent parser for the JSON subset; structural in
the fuel so that it reduces inside the kernel. -/
def parseF : Nat → PMode → List Char → Option (Json × List Char)
  | 0, _, _ => none
  | fuel + 1, .val, s =>
    (match skipWs s with
    | [] => none
    | c :: rest =>
      if c = 'n' then
        match rest with
        | 'u' :: 'l' :: 'l' :: r => some (.null, r)
        | _ => none
      else if c = 't' then
        match rest with
        | 'r' :: 'u' :: 'e' :: r => some (.bool true, r)
        | _ => none
      else if c = 'f' then
        match rest with
        | 'a' :: 'l' :: 's' :: 'e' :: r => some (.bool false, r)
        | _ => none
      else if c = '"' then
        match parseStrBody rest [] with
        | some (str, r) => some (.str str, r)
        | none => none
      else if c = '[' then parseF fuel (.arrItems true) (skipWs rest)
      else if c = '{' then parseF fuel (.objItems true) (skipWs rest)
      else if c = '-' then
        match parseDigits rest 0 false with
        | some (n, r) => some (.num (-(n : Int)), r)
        | none => none
      else if c.isDigit then
        match parseDigits (c :: rest) 0 false with
        | some (n, r) => some (.num (n : Int), r)
        | none => none
      else none)
  | fuel + 1, .arrItems first, s =>
    (match skipWs s with
    | ']' :: r => if first then some (.arr [], r) else none
    | s' =>
      match parseF fuel .val s' with
      | none => none
      | some (v, rest) =>
        match skipWs rest with
        | ',' :: r =>
          match parseF fuel (.arrItems false) r with
          | some (.arr vs, r2) => some (.arr (v :: vs), r2)
          | _ => none
        | ']' :: r => some (.arr [v], r)
        | _ => none)
  | fuel + 1, .objItems first, s =>
    (match skipWs s with
    | '}' :: r => if first then some (.obj [], r) else none
    | '"' :: r =>
      match parseStrBody r [] with
      | none => none
      | some (key, rest) =>
        match skipWs rest with
        | ':' :: r2 =>
          match parseF fuel .val r2 with
          | none => none
          | some (v, rest2) =>
            match skipWs rest2 with
            | ',' :: r3 =>
              match parseF fuel (.objItems false) r3 with
              | some (.obj fs, r4) => some (.obj ((key, v) :: fs), r4)
              | _ => none
            | '}' :: r3 => some (.obj [(key, v)], r3)
            | _ => none
        | _ => none
    | _ => none)

/-- Model of `JSON.parse`: the whole input must be one value plus optional
trailing whitespace. -/
def parseJson (s : String) : Option Json :=
  match parseF (2 * s.data.length + 2) .val s.data with
  | some (j, rest) => if skipWs rest = [] then some j else none
  | none => none

/-- JS truthiness of a JSON value (for `delta` in `if (delta)` and
`... || ''`). -/
def jsTruthy : Json → Bool
  | .null => false
  | .bool b => b
  | .num n => n != 0
  | .str s => s != ""
  | .arr _ => true
  | .obj _ => true

/-- JS string coercion of a JSON value (for `aiMessageContent += delta`).
Streamed deltas are strings, so only the `str` case is exercised by the
theorems; the other cases follow the JS `toString` conventions. -/
def jsToStr : Json → String
  | .null => "null"
  | .bool true => "true"
  | .bool false => "false"
  | .num n => toString n
  | .str s => s
  | .arr _ => ""
  | .obj _ => "[object Object]"

/-- Object field access `v.f` under JS semantics, distinguishing a thrown
`TypeError` (`none`) from plain `undefined` (`some none`). Accessing a
field of `null` throws; of any other non-object value yields `undefined`. -/
def jsGetField (v : Json) (f : String) : Option (Option Json) :=
  match v with
  | .null => none
  | .obj fs => some ((fs.find? (fun kv => kv.1 == f)).map (·.2))
  | _ => some none

/-- Index access `v[0]` under JS semantics, with the same throw/undefined
distinction. `undefined[0]` and `null[0]` throw; a string yields its first
character as a one-character string; an object looks up key `"0"`. -/
def jsIndexZero (v : Json) : Option (Option Json) :=
  match v with
  | .null => none
  | .arr xs => some (xs.head?)
  | .str s =>
    match s.data with
    | [] => some none
    | c :: _ => some (some (.str ⟨[c]⟩))
  | .obj fs => some ((fs.find? (fun kv => kv.1 == "0")).map (·.2))
  | _ => some none

/-- Model of `data.choices[0]?.delta?.content || ''` applied to a parsed
payload, under the surrounding `try`: `none` means the expression threw (the
event is logged and skipped), `some d` is the resulting delta string. -/
def deltaOfJson (data : Json) : Option String :=
  match jsGetField data "choices" with
  | none => none
  | some choices? =>
    match choices? with
    | none => none  -- `undefined[0]` throws
    | some choices =>
      match jsIndexZero choices with
      | none => none
      | some elem? =>
        match elem? with
        | none => some ""  -- optional chain short-circuits, `|| ''`
        | some elem =>
          if elem.isNull then some ""
          else
            match jsGetField elem "delta" with
            | none => none
            | some delta? =>
              match delta? with
              | none => some ""
              | some delta =>
                if delta.isNull then some ""
                else
                  match jsGetField delta "content" with
                  | none => none
                  | some content? =>
                    match content? with
                    | none => some ""
                    | some content =>
                      some (if jsTruthy content then jsToStr content else "")

/-! ## The stream decoder (chat.js lines 402-425)

Each decoded text chunk is split on `'\n\n'`; every part that starts with
`'data: '` is either the end marker `[DONE]` (skipped) or a JSON payload
from which the incremental-content field is extracted.  There is no
carry-over buffer between chunks. -/

/-- The delta a single event part contributes, if any: `none` when the part
is skipped (no `data: ` marker, end marker, parse failure, or empty/falsy
content), `some d` when `aiMessageContent += d` runs. -/
def partDelta (part : String) : Option String :=
  if jsStarts part "data: " then
    let jsonStr := jsDrop part 6
    if jsonStr == "[DONE]" then none
    else
      match parseJson jsonStr with
      | none => none
      | some data =>
        match deltaOfJson data with
        | none => none
        | some d => if d == "" then none else some d
  else none

/-- All deltas contributed by one physical chunk. -/
def chunkDeltas (chunk : String) : List String :=
  (jsSplitEvents chunk).filterMap partDelta

/-- All deltas contributed by a sequence of physical chunks, in order. -/
def streamDeltas (chunks : List String) : List String :=
  chunks.flatMap chunkDeltas

/-! ## Data model (state.js STATE shape, restricted to the orchestrator) -/

/-- A chat message (chat.js / image.js message objects).  `Date.now()`
timestamps are omitted; `id` is a counter-generated stand-in for
`crypto.randomUUID()`. -/
structure Message where
  id : Nat
  role : String
  type : String
  content : String
  prompt : Option String := none
  error : Bool := false
  errorMessage : String := ""
  deriving Repr, DecidableEq

/-- A conversation (chat.js `startNewConversation`); `lastUpdated` omitted. -/
structure Conversation where
  id : Nat
  title : String
  messages : List Message
  deriving Repr, DecidableEq

/-- The configuration snapshot `STATE.settings`. -/
structure Settings where
  openrouterKey : String
  modelId : String
  systemPrompt : String
  imageProvider : String
  imageModel : String
  deriving Repr, DecidableEq

/-- The mutable orchestrator state: `STATE.conversations`,
`STATE.ui.activeConversationId`, `STATE.ui.mode`, `STATE.ui.isGenerating`,
`STATE.abortController` (present/absent), plus the fresh-id counter. -/
structure AppState where
  conversations : List Conversation
  activeConversationId : Option Nat
  mode : String
  isGenerating : Bool
  abortController : Option Unit
  settings : Settings
  nextId : Nat
  deriving Repr, DecidableEq

/-- Observable side effects, in program order.  The `finalized*` markers
record that the corresponding `finally` block ran to completion
(`finalizedImage` is consequently never emitted: image.js's `finally`
throws at its first statement, see `generateImage`). -/
inductive Effect where
  | toast (kind : String) (msg : String)
  | chatRequest (model : String) (messages : List (String × String))
  | imageFetch (url : String)
  | imageApiRequest (model : String) (prompt : String)
  | save (convId : Nat)
  | saveAll
  | finalizedChat
  | finalizedImage
  | finalizedSend
  deriving Repr, DecidableEq

/-- Result of one orchestrator entry point: the new state and the effects
emitted, in order. -/
structure StepResult where
  state : AppState
  effects : List Effect
  deriving Repr, DecidableEq

/-- Advance the fresh-id counter. -/
def bumpId (s : AppState) : AppState := { s with nextId := s.nextId + 1 }

/-- Allocate a fresh id (model of `crypto.randomUUID()`). -/
def freshId (s : AppState) : Nat × AppState :=
  (s.nextId, bumpId s)

/-- Set `STATE.abortController`. -/
def setAbort (s : AppState) (a : Option Unit) : AppState := { s with abortController := a }

/-- Set `STATE.ui.isGenerating`. -/
def setGenerating (s : AppState) (b : Bool) : AppState := { s with isGenerating := b }

/-- The shared tail of every `finally` block: clear `isGenerating` and drop
the abort controller. -/
def finalizeFlags (s : AppState) : AppState :=
  { s with isGenerating := false, abortController := none }

/-- `STATE.conversations.find(c => c.id === cid)`. -/
def findConv (s : AppState) (cid : Nat) : Option Conversation :=
  s.conversations.find? (fun c => c.id == cid)

/-- The active conversation, when the active id is set and present. -/
def findActive (s : AppState) : Option Conversation :=
  match s.activeConversationId with
  | none => none
  | some cid => findConv s cid

/-- Mutate the first conversation with id `cid` in place (model of finding
a conversation object and assigning to its fields). -/
def updateFirstConv : List Conversation → Nat → (Conversation → Conversation) → List Conversation
  | [], _, _ => []
  | c :: rest, cid, f =>
    if c.id == cid then f c :: rest else c :: updateFirstConv rest cid f

/-- Mutate the active conversation in place, if the active id is set. -/
def updateActiveConv (s : AppState) (f : Conversation → Conversation) : AppState :=
  match s.activeConversationId with
  | none => s
  | some cid => { s with conversations := updateFirstConv s.conversations cid f }

/-- Model of `Array.prototype.findIndex` (`none` for `-1`). -/
def jsFindIdx (p : α → Bool) : List α → Option Nat
  | [] => none
  | x :: xs => if p x then some 0 else (jsFindIdx p xs).map (· + 1)

/-- Model of `arr[i] = v` after a successful `findIndex` (and of
`splice(i, 1)` below): replace the element at index `i`. -/
def modifyAt : List α → Nat → (α → α) → List α
  | [], _, _ => []
  | x :: xs, 0, f => f x :: xs
  | x :: xs, n + 1, f => x :: modifyAt xs n f

/-- Model of `Array.prototype.splice(i, 1)`: remove the element at `i`. -/
def removeAt : List α → Nat → List α
  | [], _ => []
  | _ :: xs, 0 => xs
  | x :: xs, n + 1 => x :: removeAt xs n

/-- Modelled from the spec: `APP_CONSTANTS.CONVERSATION_TITLE_MAX_LENGTH`
is defined in assets/modules/state.js, which is not among the provided
sources; the spec says only that titles are truncated to a fixed maximum
length with an ellipsis marker.  The value is a representative constant. -/
def CONVERSATION_TITLE_MAX_LENGTH : Nat := 40

/-- Modelled from the spec: `APP_CONSTANTS.IMAGE_DEFAULT_SIZE` is defined
in state.js (not provided); the code comments in image.js give its example
value `"1024x1024"`. -/
def IMAGE_DEFAULT_SIZE : String := "1024x1024"

/-- utils.js `truncateText`. -/
def truncateText (str : String) (maxLength : Nat) : String :=
  if jsLen str ≤ maxLength then str
  else jsTake str (maxLength - 3) ++ "..."

/-- chat.js `startNewConversation`: prepend a fresh conversation and make
it active. -/
def startNewConversation (s : AppState) (initialPrompt : String) : StepResult :=
  let (cid, s1) := freshId s
  let newConversation : Conversation :=
    { id := cid
      title := truncateText initialPrompt CONVERSATION_TITLE_MAX_LENGTH
      messages := [] }
  ⟨{ s1 with
      conversations := newConversation :: s1.conversations
      activeConversationId := some cid },
    [.saveAll]⟩

/-- chat.js `addMessageToConversation`: push onto the active conversation,
creating one first when none is active. -/
def addMessageToConversation (s : AppState) (message : Message) : StepResult :=
  match findActive s with
  | some conv =>
    ⟨updateActiveConv s (fun c => { c with messages := c.messages ++ [message] }),
      [.save conv.id]⟩
  | none =>
    let r := startNewConversation s
      (if message.type == "text" then message.content else "Image Generation")
    match findActive r.state with
    | some conv =>
      ⟨updateActiveConv r.state (fun c => { c with messages := c.messages ++ [message] }),
        r.effects ++ [.save conv.id]⟩
    | none => ⟨r.state, r.effects ++ [.toast "error" "Failed to start conversation."]⟩

/-- chat.js `updateLastMessageContent`: patch the message with the given id
in the active conversation. -/
def updateLastMessageContent (s : AppState) (messageId : Nat) (newContent : String)
    (isError : Bool) (errorMessage : String) : StepResult :=
  match findActive s with
  | none => ⟨s, []⟩
  | some conv =>
    match jsFindIdx (fun m => m.id == messageId) conv.messages with
    | none => ⟨s, []⟩
    | some i =>
      ⟨updateActiveConv s (fun c =>
          { c with messages := modifyAt c.messages i (fun m =>
              { m with content := newContent, error := isError, errorMessage := errorMessage }) }),
        [.save conv.id]⟩

/-! ## Image generation (image.js) -/

/-- Hexadecimal digit (uppercase, as `encodeURIComponent` produces). -/
def hexDigit (n : Nat) : Char :=
  if n < 10 then Char.ofNat (48 + n) else Char.ofNat (55 + n)

/-- UTF-8 bytes of a character. -/
def utf8Bytes (c : Char) : List Nat :=
  let n := c.toNat
  if n < 128 then [n]
  else if n < 2048 then [192 + n / 64, 128 + n % 64]
  else if n < 65536 then [224 + n / 4096, 128 + (n / 64) % 64, 128 + n % 64]
  else [240 + n / 262144, 128 + (n / 4096) % 64, 128 + (n / 64) % 64, 128 + n % 64]

/-- Characters `encodeURIComponent` leaves unescaped. -/
def isUriUnescaped (c : Char) : Bool :=
  c.isAlpha || c.isDigit || c == '-' || c == '_' || c == '.' || c == '!' ||
  c == '~' || c == '*' || c == Char.ofNat 39 || c == '(' || c == ')'

/-- Model of `encodeURIComponent`. -/
def encodeURIComponent (s : String) : String :=
  ⟨s.data.flatMap (fun c =>
    if isUriUnescaped c then [c]
    else (utf8Bytes c).flatMap (fun b => ['%', hexDigit (b / 16), hexDigit (b % 16)]))⟩

/-- Oracle for the Pollinations validating fetch: an HTTP response with a
status and `Content-Type` header (absent header modelled as `none`), or a
thrown transport error (which includes an abort). -/
inductive PolResult where
  | response (status : Nat) (contentType : Option String)
  | transportError (msg : String)
  deriving Repr, DecidableEq

/-- Oracle for the OpenRouter image POST: a non-2xx response carrying the
parsed error text (`errorData.error.message` or `statusText`), a 2xx
response with the first result URL if any, or a thrown transport error. -/
inductive OrImgResult where
  | httpError (errMsg : String)
  | ok (firstUrl : Option String)
  | transportError (msg : String)
  deriving Repr, DecidableEq

/-- Oracle for one image-generation run (only the field matching the
configured provider is consulted). -/
structure ImageOutcome where
  pol : PolResult
  openr : OrImgResult
  deriving Repr, DecidableEq

/-- image.js `generateWithPollinations`: effects emitted and either the
image URL or the thrown error message. -/
def generateWithPollinations (prompt : String) (o : PolResult) :
    List Effect × Except String String :=
  let url := "https://image.pollinations.ai/prompt/" ++ encodeURIComponent prompt ++
    "?width=1024&height=1024"
  ([.imageFetch url],
    match o with
    | .response status contentType =>
      if !(200 ≤ status && status ≤ 299) then
        .error ("Pollinations.ai returned status " ++ toString status)
      else
        match contentType with
        | none => .error "Pollinations.ai did not return an image. It might be an error page."
        | some t =>
          if jsStarts t "image/" then .ok url
          else .error "Pollinations.ai did not return an image. It might be an error page."
    | .transportError msg => .error msg)

/-- image.js `generateWithLoremFlickr`: deterministic URL construction,
`IMAGE_DEFAULT_SIZE.split('x')` giving width and height.  It performs no
network call and cannot fail. -/
def splitOnChar (sep : Char) : List Char → List (List Char)
  | [] => [[]]
  | c :: cs =>
    if c = sep then [] :: splitOnChar sep cs
    else
      match splitOnChar sep cs with
      | [] => [[c]]
      | h :: t => (c :: h) :: t

/-- image.js `generateWithLoremFlickr`. -/
def generateWithLoremFlickr : String :=
  let size := (splitOnChar 'x' IMAGE_DEFAULT_SIZE.data).map (fun l => (⟨l⟩ : String))
  let width := (size.get? 0).getD ""
  let height := (size.get? 1).getD ""
  "https://loremflickr.com/" ++ width ++ "/" ++ height ++ "/abstract,random"

/-- image.js `generateWithOpenRouter`: precondition checks before any
request, then the POST whose outcome the oracle supplies. -/
def generateWithOpenRouter (settings : Settings) (prompt : String) (o : OrImgResult) :
    List Effect × Except String String :=
  if settings.openrouterKey == "" then
    ([], .error "OpenRouter API key is not configured for image generation.")
  else if settings.imageModel == "" then
    ([], .error "OpenRouter image model ID is not configured.")
  else
    ([.imageApiRequest settings.imageModel prompt],
      match o with
      | .httpError errMsg => .error errMsg
      | .transportError msg => .error msg
      | .ok none => .error "OpenRouter did not return an image URL."
      | .ok (some u) =>
        if u == "" then .error "OpenRouter did not return an image URL." else .ok u)

/-- The message of the `TypeError` thrown at image.js line 85: the `finally`
block there reads `Chat.STATE.conversations`, but chat.js exports neither
`STATE` nor `Storage`, so `Chat.STATE` is `undefined` and the property read
throws.  The precise message text is chosen by the host engine; it is
modelled here as a fixed constant, and no theorem below depends on its
value. -/
def chatStateTypeErrorMsg : String :=
  "Cannot read properties of undefined (reading conversations)"

/-- The termination of one `generateImage` call: the state and the effects
accumulated up to the point where the call settles, and the message of the
error it rejects with. -/
structure ImageRun where
  state : AppState
  effects : List Effect
  thrown : String
  deriving Repr, DecidableEq

/-- image.js `generateImage`: append the user prompt and a placeholder,
attempt the configured provider, fall back to LoremFlickr when the
Pollinations provider was selected and failed (the fallback itself cannot
throw, so its `catch` branch is unreachable and not modelled).  The
`finally` block (lines 83-105) would then patch the placeholder, save it
and release flag and token — but its very first statement reads
`Chat.STATE.conversations` (line 85), and chat.js exports neither `STATE`
(line 85) nor `Storage` (line 97): `Chat.STATE` is `undefined`, so that
statement throws a `TypeError` which replaces the try/catch completion.
The placeholder is never patched, nothing is saved, and the flag reset and
token release at lines 101 and 104 are dead code.  Every call therefore
rejects with that `TypeError`, recorded in `thrown`; the local
`imageUrl`/`errorOccurred`/`errorMessage` variables are consumed only by
the dead patch (lines 89-96) and are not tracked. -/
def generateImage (s : AppState) (prompt : String) (o : ImageOutcome) : ImageRun :=
  let (uid, s1) := freshId s
  let r1 := addMessageToConversation s1
    { id := uid, role := "user", type := "text", content := prompt }
  let (aiImageMessageId, s2) := freshId r1.state
  let r2 := addMessageToConversation s2
    { id := aiImageMessageId, role := "ai", type := "text", content := "Generating image..." }
  let s3 := setAbort r2.state (some ())
  let (reqEffs, attempt) :=
    if s3.settings.imageProvider == "pollinations" then
      generateWithPollinations prompt o.pol
    else if s3.settings.imageProvider == "openrouter" then
      generateWithOpenRouter s3.settings prompt o.openr
    else ([], .ok "")
  let attempt2 : Except String String :=
    match attempt with
    | .ok u => if u == "" then .error "Image generation failed or returned no URL." else .ok u
    | .error m => .error m
  let postEffs :=
    match attempt2 with
    | .ok _ => ([] : List Effect)
    | .error m =>
      if s3.settings.imageProvider == "pollinations" then
        [Effect.toast "error" ("Image generation failed: " ++ m),
          Effect.toast "info" "Pollinations.ai failed, falling back to LoremFlickr..."]
      else
        [Effect.toast "error" ("Image generation failed: " ++ m)]
  ⟨s3,
    r1.effects ++ r2.effects ++ [.toast "info" "Generating image..."] ++ reqEffs ++ postEffs,
    chatStateTypeErrorMsg⟩

/-! ## Text generation (chat.js `sendChatMessage` and callers) -/

/-- How the chat stream terminates after the delivered chunks: normal end
of stream, a rejection observed with `signal.aborted` set (cancellation),
or any other thrown failure. -/
inductive StreamEnding where
  | done
  | aborted (errMsg : String)
  | failed (errMsg : String)
  deriving Repr, DecidableEq

/-- Oracle for one chat completion request: a non-2xx response carrying the
parsed error text, or a 2xx streaming response delivering the given decoded
text chunks and then terminating as `ending` says. -/
inductive ChatOutcome where
  | httpError (msg : String)
  | stream (chunks : List String) (ending : StreamEnding)
  deriving Repr, DecidableEq

/-- State of the reader loop: orchestrator state, effects so far, and the
`aiMessageContent` accumulator. -/
structure StreamStep where
  state : AppState
  effects : List Effect
  acc : String
  deriving Repr

/-- Process one event part (chat.js lines 409-423): when it contributes a
delta, extend the accumulator and patch the target message. -/
def processPart (s : AppState) (aiMessageId : Nat) (acc : String) (part : String) :
    StreamStep :=
  match partDelta part with
  | some d =>
    let acc2 := acc ++ d
    let r := updateLastMessageContent s aiMessageId acc2 false ""
    ⟨r.state, r.effects, acc2⟩
  | none => ⟨s, [], acc⟩

/-- Process the parts of one chunk in order. -/
def processParts (s : AppState) (aiMessageId : Nat) (acc : String) :
    List String → StreamStep
  | [] => ⟨s, [], acc⟩
  | p :: ps =>
    let r1 := processPart s aiMessageId acc p
    let r2 := processParts r1.state aiMessageId r1.acc ps
    ⟨r2.state, r1.effects ++ r2.effects, r2.acc⟩

/-- Process the delivered chunks in order (the reader loop, lines 402-425);
each chunk is split on the double newline with no carry-over. -/
def processChunks (s : AppState) (aiMessageId : Nat) (acc : String) :
    List String → StreamStep
  | [] => ⟨s, [], acc⟩
  | c :: cs =>
    let r1 := processParts s aiMessageId acc (jsSplitEvents c)
    let r2 := processChunks r1.state aiMessageId r1.acc cs
    ⟨r2.state, r1.effects ++ r2.effects, r2.acc⟩

/-- Does a new conversation have to be created before sending (chat.js
line 333)? -/
def needNewConv (s : AppState) : Bool :=
  match s.activeConversationId with
  | none => true
  | some cid =>
    match findConv s cid with
    | some c => c.messages.isEmpty
    | none => false

/-- chat.js `sendChatMessage`, lines 332-375: create a conversation when
needed, append the user message, build the outbound payload, create the
token and append the streaming placeholder.  Returns the early-exit result
when no active conversation can be resolved (line 338), else the prepared
state, the placeholder id, the effects so far and the payload. -/
def sendChatSetup (s0 : AppState) (prompt : String) :
    Except StepResult (AppState × Nat × List Effect × List (String × String)) :=
  let (s1, e1) :=
    if needNewConv s0 then
      let r := startNewConversation s0 prompt
      (r.state, r.effects)
    else (s0, [])
  match findActive s1 with
  | none => .error ⟨s1, e1 ++ [.toast "error" "No active conversation found."]⟩
  | some _ =>
    let (uid, s2) := freshId s1
    let r2 := addMessageToConversation s2
      { id := uid, role := "user", type := "text", content := prompt }
    let s3 := r2.state
    let history := (((findActive s3).map Conversation.messages).getD []).filter
      (fun m => m.type == "text")
    let messagesForApi : List (String × String) :=
      ("system", s3.settings.systemPrompt) ::
        (history.map (fun m => (m.role, m.content)) ++ [("user", prompt)])
    let s4 := setAbort s3 (some ())
    let (aiMessageId, s5) := freshId s4
    let r3 := addMessageToConversation s5
      { id := aiMessageId, role := "ai", type := "text", content := "" }
    .ok (r3.state, aiMessageId, e1 ++ r2.effects ++ r3.effects, messagesForApi)

/-- chat.js `sendChatMessage`, lines 377-437: the response branch.  On a
non-2xx response or a thrown failure the catch block runs; cancellation is
recognised through `signal.aborted`.  In every branch the final
`updateLastMessageContent` call passes `isError = true` (line 437). -/
def chatStreamPhase (s6 : AppState) (aiMessageId : Nat) (o : ChatOutcome) :
    AppState × List Effect :=
  match o with
  | .httpError msg =>
    let acc := "" ++ "\n\n**Error:** " ++ msg
    let ru := updateLastMessageContent s6 aiMessageId acc true msg
    (ru.state, [Effect.toast "error" ("AI chat error: " ++ msg)] ++ ru.effects)
  | .stream chunks ending =>
    let r := processChunks s6 aiMessageId "" chunks
    match ending with
    | .done => (r.state, r.effects)
    | .aborted msg =>
      let acc2 := r.acc ++ "\n\n*(Generation stopped by user)*"
      let ru := updateLastMessageContent r.state aiMessageId acc2 true msg
      (ru.state, r.effects ++ [Effect.toast "info" "AI response generation stopped."] ++ ru.effects)
    | .failed msg =>
      let acc2 := r.acc ++ "\n\n**Error:** " ++ msg
      let ru := updateLastMessageContent r.state aiMessageId acc2 true msg
      (ru.state, r.effects ++ [Effect.toast "error" ("AI chat error: " ++ msg)] ++ ru.effects)

/-- chat.js `sendChatMessage`. -/
def sendChatMessage (s0 : AppState) (prompt : String) (o : ChatOutcome) : StepResult :=
  if s0.settings.openrouterKey == "" then
    let (uid, s1) := freshId s0
    let r1 := addMessageToConversation s1
      { id := uid, role := "user", type := "text", content := prompt }
    let (aid, s2) := freshId r1.state
    let r2 := addMessageToConversation s2
      { id := aid, role := "ai", type := "text"
        content := "Error: OpenRouter API key is not configured. Please check settings."
        error := true, errorMessage := "API key not configured." }
    ⟨r2.state,
      [.toast "error" "OpenRouter API key is not configured in settings."] ++
        r1.effects ++ r2.effects⟩
  else
    match sendChatSetup s0 prompt with
    | .error r => r
    | .ok (s6, aiMessageId, effs, messagesForApi) =>
      let (s7, effs7) := chatStreamPhase s6 aiMessageId o
      ⟨finalizeFlags s7,
        effs ++ [Effect.chatRequest s6.settings.modelId messagesForApi] ++ effs7 ++
          [.saveAll, .finalizedChat]⟩

/-- Oracle for one `handleSendMessage` run: the sanitizer outcome
(`Security.filterSQLi` may throw; on success it yields the escaped prompt),
plus the oracle of whichever session is dispatched. -/
structure SendOutcome where
  sanitize : Except String String
  chat : ChatOutcome
  image : ImageOutcome
  deriving Repr

/-- chat.js `handleSendMessage`.  In image mode the awaited
`ImageGen.generateImage` always rejects (see `generateImage`); the `catch`
(lines 275-296) then shows an error toast carrying the thrown message and,
the mode not being `"chat"`, appends no messages, and the `finally`
(lines 297-302) clears the flag and the token. -/
def handleSendMessage (s : AppState) (input : String) (o : SendOutcome) : StepResult :=
  let prompt := jsTrim input
  if prompt == "" then
    ⟨s, [.toast "warning" "Please enter a message or prompt."]⟩
  else if s.isGenerating then
    ⟨s, [.toast "warning" "Please wait for the current generation to complete or stop it."]⟩
  else
    match o.sanitize with
    | .error emsg =>
      let (s1, effs1) :=
        if s.mode == "chat" then
          let (uid, sa) := freshId s
          let r1 := addMessageToConversation sa
            { id := uid, role := "user", type := "text", content := prompt }
          let (aid, sb) := freshId r1.state
          let r2 := addMessageToConversation sb
            { id := aid, role := "ai", type := "text"
              content := "An internal error occurred while processing your request."
              error := true, errorMessage := emsg }
          (r2.state, r1.effects ++ r2.effects)
        else (s, ([] : List Effect))
      ⟨finalizeFlags s1,
        [.toast "error" emsg] ++ effs1 ++ [.finalizedSend]⟩
    | .ok escapedPrompt =>
      let s1 := setGenerating s true
      if s1.mode == "chat" then
        let r := sendChatMessage s1 escapedPrompt o.chat
        ⟨finalizeFlags r.state, r.effects ++ [.finalizedSend]⟩
      else if s1.mode == "image" then
        let r := generateImage s1 escapedPrompt o.image
        ⟨finalizeFlags r.state,
          r.effects ++ [.toast "error" r.thrown] ++ [.finalizedSend]⟩
      else ⟨finalizeFlags s1, [.finalizedSend]⟩

/-- chat.js `regenerateResponse`. -/
def regenerateResponse (s : AppState) (o : ChatOutcome) : StepResult :=
  if s.isGenerating then
    ⟨s, [.toast "warning" "Please wait for the current generation to complete or stop it."]⟩
  else
    match findActive s with
    | none => ⟨s, [.toast "info" "No previous AI response to regenerate."]⟩
    | some conv =>
      if conv.messages.length < 2 then
        ⟨s, [.toast "info" "No previous AI response to regenerate."]⟩
      else
        match conv.messages.reverse.find? (fun m => m.role == "user" && m.type == "text") with
        | none => ⟨s, [.toast "info" "No user message found to regenerate from."]⟩
        | some lastUserMessage =>
          let lastMsgId : Option Nat := (conv.messages.getLast?).map Message.id
          let (s1, effs1) :=
            match jsFindIdx
                (fun (m : Message) => lastMsgId == some m.id && m.role == "ai")
                conv.messages with
            | some i =>
              (updateActiveConv s (fun c => { c with messages := removeAt c.messages i }),
                [Effect.save conv.id])
            | none => (s, ([] : List Effect))
          let s2 := setGenerating s1 true
          let r := sendChatMessage s2 lastUserMessage.content o
          ⟨setGenerating r.state false,
            effs1 ++ [.toast "info" "Regenerating AI response..."] ++ r.effects⟩

/-! ## Derived notions used by the theorems -/

/-- The messages of the active conversation (empty when none). -/
def activeMessages (s : AppState) : List Message :=
  ((findActive s).map Conversation.messages).getD []

/-- Every stored message id is below the fresh-id counter (the model of
`crypto.randomUUID()` uniqueness). -/
def idsBounded (s : AppState) : Prop :=
  ∀ c ∈ s.conversations, ∀ m ∈ c.messages, m.id < s.nextId

/-- The active conversation id, when set, refers to a stored conversation. -/
def activeOk (s : AppState) : Prop :=
  s.activeConversationId.all (fun cid => (findConv s cid).isSome) = true

/-- Message ids are unique within each conversation. -/
def msgIdsNodup (s : AppState) : Prop :=
  ∀ c ∈ s.conversations, (c.messages.map Message.id).Nodup

instance : DecidablePred idsBounded := fun s => by
  unfold idsBounded; infer_instance

instance : DecidablePred msgIdsNodup := fun s => by
  unfold msgIdsNodup; infer_instance

instance : DecidablePred activeOk := fun s => by
  unfold activeOk; infer_instance

/-- Did the `finally` block of one of the entry points run? -/
def Effect.isFin : Effect → Bool
  | .finalizedChat => true
  | .finalizedImage => true
  | .finalizedSend => true
  | _ => false

/-! ## Store lemmas -/

theorem find?_updateFirstConv_self {cs : List Conversation} {cid : Nat} {c : Conversation}
    {f : Conversation → Conversation} (hid : ∀ x, (f x).id = x.id)
    (h : cs.find? (fun x => x.id == cid) = some c) :
    (updateFirstConv cs cid f).find? (fun x => x.id == cid) = some (f c) := by
  induction cs with
  | nil => simp at h
  | cons hd tl ih =>
    by_cases hhd : (hd.id == cid) = true
    · simp only [List.find?, hhd] at h
      cases h
      simp only [updateFirstConv, hhd, if_true, List.find?, hid, cond_true]
    · simp only [List.find?, hhd, cond_false] at h
      simp only [updateFirstConv, hhd]
      simp only [Bool.false_eq_true, if_false, List.find?, hhd, cond_false]
      exact ih h

theorem findActive_updateActiveConv {s : AppState} {conv : Conversation}
    {f : Conversation → Conversation} (hid : ∀ x, (f x).id = x.id)
    (h : findActive s = some conv) :
    findActive (updateActiveConv s f) = some (f conv) := by
  unfold findActive at h ⊢
  cases hA : s.activeConversationId with
  | none => rw [hA] at h; simp at h
  | some cid =>
    rw [hA] at h
    unfold updateActiveConv
    rw [hA]
    simpa [findConv] using find?_updateFirstConv_self hid h

@[simp] theorem updateActiveConv_activeId (s : AppState) (f : Conversation → Conversation) :
    (updateActiveConv s f).activeConversationId = s.activeConversationId := by
  cases hA : s.activeConversationId <;> simp [updateActiveConv, hA]

@[simp] theorem updateActiveConv_nextId (s : AppState) (f : Conversation → Conversation) :
    (updateActiveConv s f).nextId = s.nextId := by
  cases hA : s.activeConversationId <;> simp [updateActiveConv, hA]

@[simp] theorem updateActiveConv_settings (s : AppState) (f : Conversation → Conversation) :
    (updateActiveConv s f).settings = s.settings := by
  cases hA : s.activeConversationId <;> simp [updateActiveConv, hA]

@[simp] theorem updateActiveConv_mode (s : AppState) (f : Conversation → Conversation) :
    (updateActiveConv s f).mode = s.mode := by
  cases hA : s.activeConversationId <;> simp [updateActiveConv, hA]

@[simp] theorem updateActiveConv_isGenerating (s : AppState) (f : Conversation → Conversation) :
    (updateActiveConv s f).isGenerating = s.isGenerating := by
  cases hA : s.activeConversationId <;> simp [updateActiveConv, hA]

@[simp] theorem updateActiveConv_abort (s : AppState) (f : Conversation → Conversation) :
    (updateActiveConv s f).abortController = s.abortController := by
  cases hA : s.activeConversationId <;> simp [updateActiveConv, hA]

/-- The conversation `startNewConversation` creates. -/
def newConvFor (s : AppState) (title : String) : Conversation :=
  { id := s.nextId, title := truncateText title CONVERSATION_TITLE_MAX_LENGTH, messages := [] }

theorem findActive_startNew (s : AppState) (p : String) :
    findActive (startNewConversation s p).state = some (newConvFor s p) := by
  simp [startNewConversation, findActive, findConv, freshId, List.find?, newConvFor]

theorem addMessage_of_active {s : AppState} {conv : Conversation}
    (h : findActive s = some conv) (m : Message) :
    addMessageToConversation s m =
      ⟨updateActiveConv s (fun c => { c with messages := c.messages ++ [m] }),
        [.save conv.id]⟩ := by
  simp [addMessageToConversation, h]

theorem addMessage_of_none {s : AppState} (h : findActive s = none) (m : Message) :
    addMessageToConversation s m =
      ⟨{ s with
          conversations :=
            { id := s.nextId
              title := truncateText (if m.type == "text" then m.content else "Image Generation")
                CONVERSATION_TITLE_MAX_LENGTH
              messages := [m] } :: s.conversations
          activeConversationId := some s.nextId
          nextId := s.nextId + 1 },
        [.saveAll, .save s.nextId]⟩ := by
  simp only [addMessageToConversation, h]
  simp [startNewConversation, freshId, bumpId, findActive, findConv, List.find?,
    updateActiveConv, updateFirstConv]

theorem jsFindIdx_append_last {p : α → Bool} {pre : List α} {c : α}
    (hpre : ∀ x ∈ pre, p x = false) (hc : p c = true) :
    jsFindIdx p (pre ++ [c]) = some pre.length := by
  induction pre with
  | nil => simp [jsFindIdx, hc]
  | cons hd tl ih =>
    have hhd : p hd = false := hpre hd (by simp)
    have ih2 := ih (fun x hx => hpre x (by simp [hx]))
    simp [jsFindIdx, hhd, ih2]

theorem modifyAt_append_last (pre : List α) (c : α) (f : α → α) :
    modifyAt (pre ++ [c]) pre.length f = pre ++ [f c] := by
  induction pre with
  | nil => simp [modifyAt]
  | cons hd tl ih => simp [modifyAt, ih]

theorem removeAt_append_last (pre : List α) (c : α) :
    removeAt (pre ++ [c]) pre.length = pre := by
  induction pre with
  | nil => simp [removeAt]
  | cons hd tl ih => simp [removeAt, ih]

/-! ## String and concatenation lemmas -/

theorem str_ext {a b : String} (h : a.data = b.data) : a = b := by
  cases a; cases b; exact congrArg String.mk h

theorem strData_append (a b : String) : (a ++ b).data = a.data ++ b.data := by
  cases a; cases b; rfl

theorem str_append_assoc (a b c : String) : a ++ b ++ c = a ++ (b ++ c) := by
  apply str_ext
  simp [strData_append]

theorem str_empty_append (a : String) : "" ++ a = a := by
  apply str_ext
  simp [strData_append]

theorem str_append_empty (a : String) : a ++ "" = a := by
  apply str_ext
  simp [strData_append]

theorem joinAll_append (a b : List String) : joinAll (a ++ b) = joinAll a ++ joinAll b := by
  induction a with
  | nil => simp [joinAll, str_empty_append]
  | cons hd tl ih => simp [joinAll, ih, str_append_assoc]

/-! ## The streaming target invariant (claims C1 and C2)

Through the reader loop the active conversation always consists of an
unchanged prefix followed by the streaming placeholder, whose content
equals the accumulator. -/

/-- The assistant message created as the streaming placeholder, with the
given accumulated content. -/
def aiMsg (aid : Nat) (content : String) : Message :=
  { id := aid, role := "ai", type := "text", content := content }

/-- The active conversation is `pre ++ [msg]` and no message of `pre` has
the target id. -/
def targetLast (s : AppState) (aid : Nat) (pre : List Message) (msg : Message) : Prop :=
  msg.id = aid ∧ (∀ m ∈ pre, m.id ≠ aid) ∧
  ∃ conv, findActive s = some conv ∧ conv.messages = pre ++ [msg]

theorem targetLast_activeMessages {s : AppState} {aid : Nat} {pre : List Message}
    {msg : Message} (h : targetLast s aid pre msg) :
    activeMessages s = pre ++ [msg] := by
  obtain ⟨-, -, conv, hC, hM⟩ := h
  simp [activeMessages, hC, hM]

theorem updateLast_target {s : AppState} {aid : Nat} {pre : List Message} {msg : Message}
    (h : targetLast s aid pre msg) (c : String) (e : Bool) (em : String) :
    targetLast (updateLastMessageContent s aid c e em).state aid pre
      { msg with content := c, error := e, errorMessage := em } ∧
    (updateLastMessageContent s aid c e em).state.nextId = s.nextId ∧
    (updateLastMessageContent s aid c e em).state.settings = s.settings ∧
    (updateLastMessageContent s aid c e em).state.isGenerating = s.isGenerating ∧
    (updateLastMessageContent s aid c e em).state.abortController = s.abortController := by
  obtain ⟨hid, hpre, conv, hC, hM⟩ := h
  have hFind : jsFindIdx (fun m => m.id == aid) conv.messages = some pre.length := by
    rw [hM]
    apply jsFindIdx_append_last
    · intro x hx
      simpa using hpre x hx
    · simpa using hid
  simp only [updateLastMessageContent, hC, hFind]
  refine ⟨⟨hid, hpre, _, findActive_updateActiveConv (fun x => rfl) hC, ?_⟩, ?_, ?_, ?_, ?_⟩
  · simp only [hM, modifyAt_append_last]
  · simp
  · simp
  · simp
  · simp

theorem processPart_target {s : AppState} {aid : Nat} {pre : List Message} {acc : String}
    (p : String) (h : targetLast s aid pre (aiMsg aid acc)) :
    targetLast (processPart s aid acc p).state aid pre
      (aiMsg aid (processPart s aid acc p).acc) ∧
    (processPart s aid acc p).acc = acc ++ ((partDelta p).getD "") := by
  cases hd : partDelta p with
  | none =>
    simp only [processPart, hd, Option.getD_none]
    exact ⟨h, (str_append_empty acc).symm⟩
  | some d =>
    simp only [processPart, hd, Option.getD_some]
    have := (updateLast_target h (acc ++ d) false "").1
    exact ⟨this, by trivial⟩

theorem processParts_target {aid : Nat} {pre : List Message} (ps : List String) :
    ∀ {s : AppState} {acc : String}, targetLast s aid pre (aiMsg aid acc) →
    targetLast (processParts s aid acc ps).state aid pre
      (aiMsg aid (processParts s aid acc ps).acc) ∧
    (processParts s aid acc ps).acc = acc ++ joinAll (ps.filterMap partDelta) := by
  induction ps with
  | nil =>
    intro s acc h
    simp only [processParts, List.filterMap_nil, joinAll]
    exact ⟨h, (str_append_empty acc).symm⟩
  | cons p ps ih =>
    intro s acc h
    obtain ⟨h1, hacc1⟩ := processPart_target p h
    obtain ⟨h2, hacc2⟩ := ih h1
    refine ⟨h2, ?_⟩
    simp only [processParts]
    rw [hacc2, hacc1]
    cases hd : partDelta p with
    | none =>
      simp [hd, str_append_empty]
    | some d =>
      simp [hd, joinAll, str_append_assoc]

theorem processChunks_target {aid : Nat} {pre : List Message} (cs : List String) :
    ∀ {s : AppState} {acc : String}, targetLast s aid pre (aiMsg aid acc) →
    targetLast (processChunks s aid acc cs).state aid pre
      (aiMsg aid (processChunks s aid acc cs).acc) ∧
    (processChunks s aid acc cs).acc = acc ++ joinAll (streamDeltas cs) := by
  induction cs with
  | nil =>
    intro s acc h
    simp only [processChunks, streamDeltas, List.flatMap_nil, joinAll]
    exact ⟨h, (str_append_empty acc).symm⟩
  | cons c cs ih =>
    intro s acc h
    obtain ⟨h1, hacc1⟩ := processParts_target (jsSplitEvents c) h
    obtain ⟨h2, hacc2⟩ := ih h1
    refine ⟨h2, ?_⟩
    simp only [processChunks]
    rw [hacc2, hacc1]
    simp only [streamDeltas, List.flatMap_cons, joinAll_append, str_append_assoc]
    rfl

/-- The history the outbound payload maps over, as of the start of
`sendChatMessage`: empty when a fresh conversation will be created, else
the active conversation's messages. -/
def historyBase (s : AppState) : List Message :=
  if needNewConv s then [] else activeMessages s

/-- The user message record appended in step 2. -/
def userMsg (uid : Nat) (content : String) : Message :=
  { id := uid, role := "user", type := "text", content := content }

/-- The outbound message sequence `messagesForApi` expressed over the
original state: system message, mapped text history (which ends with the
just-appended user prompt), then the prompt again. -/
def chatPayload (s : AppState) (prompt : String) : List (String × String) :=
  ("system", s.settings.systemPrompt) ::
    (((historyBase s).filter (fun m => m.type == "text")).map (fun m => (m.role, m.content)) ++
      [("user", prompt), ("user", prompt)])

@[simp] theorem findActive_set_nextId (s : AppState) (n : Nat) :
    findActive { s with nextId := n } = findActive s := rfl

@[simp] theorem findActive_set_abort (s : AppState) (a : Option Unit) :
    findActive { s with abortController := a } = findActive s := rfl

@[simp] theorem bumpId_conversations (s : AppState) : (bumpId s).conversations = s.conversations := rfl
@[simp] theorem bumpId_activeId (s : AppState) : (bumpId s).activeConversationId = s.activeConversationId := rfl
@[simp] theorem bumpId_mode (s : AppState) : (bumpId s).mode = s.mode := rfl
@[simp] theorem bumpId_isGenerating (s : AppState) : (bumpId s).isGenerating = s.isGenerating := rfl
@[simp] theorem bumpId_abort (s : AppState) : (bumpId s).abortController = s.abortController := rfl
@[simp] theorem bumpId_settings (s : AppState) : (bumpId s).settings = s.settings := rfl
@[simp] theorem bumpId_nextId (s : AppState) : (bumpId s).nextId = s.nextId + 1 := rfl
@[simp] theorem findActive_bumpId (s : AppState) : findActive (bumpId s) = findActive s := rfl

@[simp] theorem setAbort_conversations (s : AppState) (a : Option Unit) : (setAbort s a).conversations = s.conversations := rfl
@[simp] theorem setAbort_activeId (s : AppState) (a : Option Unit) : (setAbort s a).activeConversationId = s.activeConversationId := rfl
@[simp] theorem setAbort_mode (s : AppState) (a : Option Unit) : (setAbort s a).mode = s.mode := rfl
@[simp] theorem setAbort_isGenerating (s : AppState) (a : Option Unit) : (setAbort s a).isGenerating = s.isGenerating := rfl
@[simp] theorem setAbort_abort (s : AppState) (a : Option Unit) : (setAbort s a).abortController = a := rfl
@[simp] theorem setAbort_settings (s : AppState) (a : Option Unit) : (setAbort s a).settings = s.settings := rfl
@[simp] theorem setAbort_nextId (s : AppState) (a : Option Unit) : (setAbort s a).nextId = s.nextId := rfl
@[simp] theorem findActive_setAbort (s : AppState) (a : Option Unit) : findActive (setAbort s a) = findActive s := rfl

@[simp] theorem setGenerating_conversations (s : AppState) (b : Bool) : (setGenerating s b).conversations = s.conversations := rfl
@[simp] theorem setGenerating_activeId (s : AppState) (b : Bool) : (setGenerating s b).activeConversationId = s.activeConversationId := rfl
@[simp] theorem setGenerating_mode (s : AppState) (b : Bool) : (setGenerating s b).mode = s.mode := rfl
@[simp] theorem setGenerating_isGenerating (s : AppState) (b : Bool) : (setGenerating s b).isGenerating = b := rfl
@[simp] theorem setGenerating_abort (s : AppState) (b : Bool) : (setGenerating s b).abortController = s.abortController := rfl
@[simp] theorem setGenerating_settings (s : AppState) (b : Bool) : (setGenerating s b).settings = s.settings := rfl
@[simp] theorem setGenerating_nextId (s : AppState) (b : Bool) : (setGenerating s b).nextId = s.nextId := rfl
@[simp] theorem findActive_setGenerating (s : AppState) (b : Bool) : findActive (setGenerating s b) = findActive s := rfl
@[simp] theorem needNewConv_setGenerating (s : AppState) (b : Bool) : needNewConv (setGenerating s b) = needNewConv s := rfl

@[simp] theorem finalizeFlags_conversations (s : AppState) : (finalizeFlags s).conversations = s.conversations := rfl
@[simp] theorem finalizeFlags_activeId (s : AppState) : (finalizeFlags s).activeConversationId = s.activeConversationId := rfl
@[simp] theorem finalizeFlags_mode (s : AppState) : (finalizeFlags s).mode = s.mode := rfl
@[simp] theorem finalizeFlags_isGenerating (s : AppState) : (finalizeFlags s).isGenerating = false := rfl
@[simp] theorem finalizeFlags_abort (s : AppState) : (finalizeFlags s).abortController = none := rfl
@[simp] theorem finalizeFlags_settings (s : AppState) : (finalizeFlags s).settings = s.settings := rfl
@[simp] theorem finalizeFlags_nextId (s : AppState) : (finalizeFlags s).nextId = s.nextId := rfl
@[simp] theorem findActive_finalizeFlags (s : AppState) : findActive (finalizeFlags s) = findActive s := rfl
@[simp] theorem activeMessages_finalizeFlags (s : AppState) : activeMessages (finalizeFlags s) = activeMessages s := rfl


theorem addMessage_shape {s : AppState} {conv : Conversation}
    (h : findActive s = some conv) (m : Message) :
    ∃ s', addMessageToConversation s m = ⟨s', [.save conv.id]⟩ ∧
      findActive s' = some { conv with messages := conv.messages ++ [m] } ∧
      s'.activeConversationId = s.activeConversationId ∧
      s'.nextId = s.nextId ∧ s'.settings = s.settings ∧
      s'.isGenerating = s.isGenerating ∧ s'.abortController = s.abortController ∧
      s'.mode = s.mode := by
  refine ⟨_, addMessage_of_active h m,
    findActive_updateActiveConv (fun x => rfl) h, ?_, ?_, ?_, ?_, ?_, ?_⟩ <;> simp

theorem sendChatSetup_spec (s0 : AppState) (prompt : String)
    (hB : idsBounded s0) (hA : activeOk s0) :
    ∃ s6 aid uid effs,
      sendChatSetup s0 prompt = .ok (s6, aid, effs, chatPayload s0 prompt) ∧
      targetLast s6 aid (historyBase s0 ++ [userMsg uid prompt]) (aiMsg aid "") ∧
      effs.filter Effect.isFin = [] ∧
      (∀ e ∈ effs, ∀ mo ms, e ≠ Effect.chatRequest mo ms) ∧
      s6.settings = s0.settings ∧
      s6.isGenerating = s0.isGenerating := by
  by_cases hNew : needNewConv s0 = true
  · simp only [sendChatSetup, hNew, if_true, findActive_startNew]
    simp only [startNewConversation, freshId, bumpId, addMessageToConversation, findActive,
      findConv, List.find?, updateActiveConv, updateFirstConv, beq_self_eq_true, cond_true,
      if_true, setAbort]
    simp only [chatPayload, historyBase, hNew, if_true]
    refine ⟨_, _, s0.nextId + 1, _, rfl, ?_, ?_, ?_, ?_, ?_⟩
    · refine ⟨rfl, ?_, ?_⟩
      · intro m hm
        simp [userMsg] at hm
        simp [hm, aiMsg]
      · simp only [findActive, findConv, List.find?, beq_self_eq_true, cond_true]
        exact ⟨_, rfl, by simp [userMsg, aiMsg]⟩
    · simp [Effect.isFin]
    · simp
    · simp
    · simp
  · have hNew2 : needNewConv s0 = false := by simpa using hNew
    obtain ⟨cid, hCid⟩ : ∃ cid, s0.activeConversationId = some cid := by
      cases hC : s0.activeConversationId with
      | none => simp [needNewConv, hC] at hNew2
      | some c => exact ⟨c, rfl⟩
    obtain ⟨conv, hConv⟩ : ∃ conv, findConv s0 cid = some conv := by
      have h1 := hA
      unfold activeOk at h1
      rw [hCid] at h1
      simp [Option.all] at h1
      exact Option.isSome_iff_exists.mp h1
    have hFA : findActive s0 = some conv := by
      unfold findActive
      rw [hCid]
      exact hConv
    have hMemConv : conv ∈ s0.conversations := List.mem_of_find?_eq_some hConv
    have hIds : ∀ m ∈ conv.messages, m.id < s0.nextId := hB conv hMemConv
    have h2 : findActive (bumpId s0) = some conv := by simp [hFA]
    obtain ⟨s3, hEq1, h3, h3a, h3n, h3s, h3g, h3ab, h3m⟩ := addMessage_shape h2
      { id := s0.nextId, role := "user", type := "text", content := prompt }
    have h5 : findActive (bumpId (setAbort s3 (some ()))) = some
        { conv with messages := conv.messages ++
          [{ id := s0.nextId, role := "user", type := "text", content := prompt }] } := by
      simp [h3]
    obtain ⟨s6, hEq2, h6, h6a, h6n, h6s, h6g, h6ab, h6m⟩ := addMessage_shape h5
      { id := s0.nextId + 1, role := "ai", type := "text", content := "" }
    simp only [sendChatSetup, hNew2, Bool.false_eq_true, if_false, freshId]
    rw [hFA, hEq1]
    dsimp only
    simp only [setAbort_nextId, h3n, bumpId_nextId]
    rw [hEq2]
    dsimp only
    simp only [h3, Option.map_some, Option.getD_some]
    refine ⟨s6, s0.nextId + 1, s0.nextId,
      [] ++ [Effect.save conv.id] ++ [Effect.save conv.id], ?_, ?_, ?_, ?_, ?_, ?_⟩
    · simp [chatPayload, historyBase, hNew2, activeMessages, hFA, h3s]
    · refine ⟨rfl, ?_, ?_⟩
      · intro m hm
        simp [historyBase, hNew2, activeMessages, hFA, userMsg] at hm
        rcases hm with hm | hm
        · have := hIds m hm
          omega
        · simp [hm]
      · refine ⟨_, h6, ?_⟩
        simp [historyBase, hNew2, activeMessages, hFA, userMsg, aiMsg]
    · simp [Effect.isFin]
    · simp
    · simp [h6s, h3s]
    · simp [h6g, h3g]

/-- Is this effect an outbound chat completion request? -/
def Effect.isChatReq : Effect → Bool
  | .chatRequest _ _ => true
  | _ => false

theorem updateLast_effects_save (s : AppState) (mid : Nat) (c : String) (e : Bool)
    (em : String) : ∀ x ∈ (updateLastMessageContent s mid c e em).effects,
    ∃ i, x = Effect.save i := by
  unfold updateLastMessageContent
  split
  · simp
  · split <;> simp

theorem processParts_effects_save (aid : Nat) (ps : List String) :
    ∀ (s : AppState) (acc : String), ∀ x ∈ (processParts s aid acc ps).effects,
    ∃ i, x = Effect.save i := by
  induction ps with
  | nil => intro s acc x hx; simp [processParts] at hx
  | cons p ps ih =>
    intro s acc x hx
    simp only [processParts, List.mem_append] at hx
    rcases hx with hx | hx
    · revert hx
      unfold processPart
      split
      · exact updateLast_effects_save _ _ _ _ _ x
      · simp
    · exact ih _ _ x hx

theorem processChunks_effects_save (aid : Nat) (cs : List String) :
    ∀ (s : AppState) (acc : String), ∀ x ∈ (processChunks s aid acc cs).effects,
    ∃ i, x = Effect.save i := by
  induction cs with
  | nil => intro s acc x hx; simp [processChunks] at hx
  | cons c cs ih =>
    intro s acc x hx
    simp only [processChunks, List.mem_append] at hx
    rcases hx with hx | hx
    · exact processParts_effects_save aid _ _ _ x hx
    · exact ih _ _ x hx

theorem chatStreamPhase_effects (s : AppState) (aid : Nat) (o : ChatOutcome) :
    ∀ x ∈ (chatStreamPhase s aid o).2,
    (∃ i, x = Effect.save i) ∨ (∃ k m, x = Effect.toast k m) := by
  intro x hx
  unfold chatStreamPhase at hx
  rcases o with msg | ⟨chunks, ending⟩
  · simp only [List.mem_append, List.mem_singleton] at hx
    rcases hx with hx | hx
    · exact Or.inr ⟨_, _, hx⟩
    · exact Or.inl (updateLast_effects_save _ _ _ _ _ x hx)
  · rcases ending with _ | msg | msg <;>
      simp only [List.mem_append, List.mem_singleton] at hx
    · exact Or.inl (processChunks_effects_save aid _ _ _ x hx)
    · rcases hx with (hx | hx) | hx
      · exact Or.inl (processChunks_effects_save aid _ _ _ x hx)
      · exact Or.inr ⟨_, _, hx⟩
      · exact Or.inl (updateLast_effects_save _ _ _ _ _ x hx)
    · rcases hx with (hx | hx) | hx
      · exact Or.inl (processChunks_effects_save aid _ _ _ x hx)
      · exact Or.inr ⟨_, _, hx⟩
      · exact Or.inl (updateLast_effects_save _ _ _ _ _ x hx)

/-! ## Demonstration states used by witnesses -/

/-- A configuration with every field present. -/
def demoSettings : Settings :=
  { openrouterKey := "sk", modelId := "m1", systemPrompt := "sys"
    imageProvider := "pollinations", imageModel := "im" }

/-- A fresh idle state in chat mode. -/
def demoState : AppState :=
  { conversations := [], activeConversationId := none, mode := "chat"
    isGenerating := false, abortController := none, settings := demoSettings, nextId := 0 }

/-- A stream chunk carrying one delta `"Hi"`. -/
def demoChunk : String :=
  "data: \x7b\"choices\":[\x7b\"delta\":\x7b\"content\":\"Hi\"\x7d\x7d]\x7d\n\n"

/-- A stream chunk carrying one delta `" there"`. -/
def demoChunk2 : String :=
  "data: \x7b\"choices\":[\x7b\"delta\":\x7b\"content\":\" there\"\x7d\x7d]\x7d\n\n"

/-! ## Claim C1 -/

/-- C1: for every text generation whose stream delivers delta fragments
D1..Dn (the nested incremental-content fields of the well-formed events, in
arrival order, as `streamDeltas` extracts them), the target assistant
message's final content equals the concatenation D1+...+Dn — no reordering,
dropping or coalescing. -/
theorem C1_stream_concatenation (s : AppState) (prompt : String) (chunks : List String)
    (hB : idsBounded s) (hA : activeOk s) (hKey : s.settings.openrouterKey ≠ "") :
    ∃ aid, (activeMessages (sendChatMessage s prompt (.stream chunks .done)).state).getLast? =
      some (aiMsg aid (joinAll (streamDeltas chunks))) := by
  obtain ⟨s6, aid, uid, effs, hEq, hT, hFin, hReq, hSet, hGen⟩ := sendChatSetup_spec s prompt hB hA
  have hk : (s.settings.openrouterKey == "") = false := beq_eq_false_iff_ne.mpr hKey
  refine ⟨aid, ?_⟩
  simp only [sendChatMessage, hk, Bool.false_eq_true, if_false, hEq]
  simp only [chatStreamPhase]
  obtain ⟨hT2, hAcc⟩ := processChunks_target chunks hT
  have hAM := targetLast_activeMessages hT2
  simp only [activeMessages_finalizeFlags]
  rw [hAM, hAcc, str_empty_append, List.getLast?_concat]

/-- Witness for C1 at a concrete state and a two-delta stream. -/
theorem C1_witness :
    idsBounded demoState ∧ activeOk demoState ∧ demoState.settings.openrouterKey ≠ "" ∧
    (∃ aid, (activeMessages (sendChatMessage demoState "Hello"
        (.stream [demoChunk, demoChunk2] .done)).state).getLast? =
      some (aiMsg aid (joinAll (streamDeltas [demoChunk, demoChunk2])))) :=
  ⟨by decide, by decide, by decide,
    C1_stream_concatenation demoState "Hello" [demoChunk, demoChunk2]
      (by decide) (by decide) (by decide)⟩

/-! ## Claim C2 -/

/-- C2 as written is false on the code: the shared finalization call at
chat.js line 437, `updateLastMessageContent(aiMessageId, aiMessageContent,
true, error.message)`, passes `isError = true` on the cancellation branch
as well.  At this concrete cancelled generation (one delta `"Hi"` applied,
then abort) the finalized message carries the partial content plus the
cancellation notice, but its error flag is `true`, not `false`. -/
theorem C2_counterexample :
    ((activeMessages (sendChatMessage demoState "Hello"
        (.stream [demoChunk] (.aborted "The user aborted a request."))).state).getLast?).map
      Message.content = some ("Hi" ++ "\n\n*(Generation stopped by user)*") ∧
    ¬ (((activeMessages (sendChatMessage demoState "Hello"
        (.stream [demoChunk] (.aborted "The user aborted a request."))).state).getLast?).map
      Message.error = some false) := by
  constructor
  · decide
  · decide

/-- C2 (amended): cancelling an in-flight text generation after the deltas
of `chunks` have been applied finalizes the target message with content
equal to the concatenation of those deltas followed by the cancellation
notice, and with its error flag equal to `true` and the abort failure's
message as the error detail (the code finalizes cancellation through the
same error-marking call as failures). -/
theorem C2_cancellation_content (s : AppState) (prompt : String) (chunks : List String)
    (emsg : String)
    (hB : idsBounded s) (hA : activeOk s) (hKey : s.settings.openrouterKey ≠ "") :
    ∃ aid, (activeMessages (sendChatMessage s prompt
        (.stream chunks (.aborted emsg))).state).getLast? =
      some { aiMsg aid (joinAll (streamDeltas chunks) ++ "\n\n*(Generation stopped by user)*")
        with error := true, errorMessage := emsg } := by
  obtain ⟨s6, aid, uid, effs, hEq, hT, hFin, hReq, hSet, hGen⟩ := sendChatSetup_spec s prompt hB hA
  have hk : (s.settings.openrouterKey == "") = false := beq_eq_false_iff_ne.mpr hKey
  refine ⟨aid, ?_⟩
  simp only [sendChatMessage, hk, Bool.false_eq_true, if_false, hEq]
  simp only [chatStreamPhase]
  obtain ⟨hT2, hAcc⟩ := processChunks_target chunks hT
  obtain ⟨hT3, -⟩ := updateLast_target hT2
    ((processChunks s6 aid "" chunks).acc ++ "\n\n*(Generation stopped by user)*") true emsg
  have hAM := targetLast_activeMessages hT3
  simp only [activeMessages_finalizeFlags]
  rw [hAM, List.getLast?_concat]
  rw [hAcc, str_empty_append]
  simp [aiMsg]

/-- Witness for the amended C2 at a concrete cancelled stream. -/
theorem C2_witness :
    idsBounded demoState ∧ activeOk demoState ∧ demoState.settings.openrouterKey ≠ "" ∧
    (∃ aid, (activeMessages (sendChatMessage demoState "Hello"
        (.stream [demoChunk] (.aborted "The user aborted a request."))).state).getLast? =
      some { aiMsg aid (joinAll (streamDeltas [demoChunk]) ++
          "\n\n*(Generation stopped by user)*")
        with error := true, errorMessage := "The user aborted a request." }) :=
  ⟨by decide, by decide, by decide,
    C2_cancellation_content demoState "Hello" [demoChunk] "The user aborted a request."
      (by decide) (by decide) (by decide)⟩

/-! ## Claim C9 -/

/-- C9: with a credential present, the outbound request's message sequence
is: one system message; then every text message of the active conversation
in stored order — the stored history `historyBase s` already extended by
the just-appended user prompt — mapped to role+content pairs; then the new
prompt again as a final user turn (so the prompt appears twice); image
messages are excluded by the `type == "text"` filter. -/
theorem C9_outbound_payload (s : AppState) (prompt : String) (o : ChatOutcome)
    (hB : idsBounded s) (hA : activeOk s) (hKey : s.settings.openrouterKey ≠ "") :
    ∃ uid,
      (sendChatMessage s prompt o).effects.filter Effect.isChatReq =
        [Effect.chatRequest s.settings.modelId
          (("system", s.settings.systemPrompt) ::
            (((historyBase s ++ [userMsg uid prompt]).filter (fun m => m.type == "text")).map
              (fun m => (m.role, m.content)) ++ [("user", prompt)]))] := by
  obtain ⟨s6, aid, uid, effs, hEq, hT, hFin, hReq, hSet, hGen⟩ := sendChatSetup_spec s prompt hB hA
  have hk : (s.settings.openrouterKey == "") = false := beq_eq_false_iff_ne.mpr hKey
  refine ⟨uid, ?_⟩
  have hEffsNil : effs.filter Effect.isChatReq = [] := by
    rw [List.filter_eq_nil_iff]
    intro e he
    cases e <;> simp [Effect.isChatReq]
    · exact hReq _ he _ _ rfl
  have hPhase : ((chatStreamPhase s6 aid o).2).filter Effect.isChatReq = [] := by
    rw [List.filter_eq_nil_iff]
    intro e he
    rcases chatStreamPhase_effects s6 aid o e he with ⟨i, rfl⟩ | ⟨k, m, rfl⟩ <;>
      simp [Effect.isChatReq]
  simp only [sendChatMessage, hk, Bool.false_eq_true, if_false, hEq]
  simp only [List.filter_append, hEffsNil, hPhase, hSet]
  simp [Effect.isChatReq, chatPayload, userMsg]

theorem imageAdds_spec (s : AppState) (prompt : String) (hB : idsBounded s) :
    ∃ sA sB aid pre e1 e2,
      addMessageToConversation (bumpId s)
        { id := s.nextId, role := "user", type := "text", content := prompt } = ⟨sA, e1⟩ ∧
      addMessageToConversation (bumpId sA)
        { id := sA.nextId, role := "ai", type := "text",
          content := "Generating image..." } = ⟨sB, e2⟩ ∧
      aid = sA.nextId ∧
      targetLast sB aid pre
        { id := aid, role := "ai", type := "text", content := "Generating image..." } ∧
      (∀ x ∈ e1 ++ e2, (∃ i, x = Effect.save i) ∨ x = Effect.saveAll) ∧
      sB.settings = s.settings ∧ sB.isGenerating = s.isGenerating ∧ sB.mode = s.mode := by
  cases hFA : findActive s with
  | some conv =>
    have h2 : findActive (bumpId s) = some conv := by simp [hFA]
    obtain ⟨sA, hEq1, h3, h3a, h3n, h3s, h3g, h3ab, h3m⟩ := addMessage_shape h2
      { id := s.nextId, role := "user", type := "text", content := prompt }
    have h5 : findActive (bumpId sA) = some
        { conv with messages := conv.messages ++
          [{ id := s.nextId, role := "user", type := "text", content := prompt }] } := by
      simp [h3]
    obtain ⟨sB, hEq2, h6, h6a, h6n, h6s, h6g, h6ab, h6m⟩ := addMessage_shape h5
      { id := sA.nextId, role := "ai", type := "text", content := "Generating image..." }
    have hMemConv : conv ∈ s.conversations := by
      unfold findActive at hFA
      cases hCid : s.activeConversationId with
      | none => rw [hCid] at hFA; simp at hFA
      | some cid =>
        rw [hCid] at hFA
        exact List.mem_of_find?_eq_some hFA
    have hIds : ∀ m ∈ conv.messages, m.id < s.nextId := hB conv hMemConv
    refine ⟨sA, sB, sA.nextId, conv.messages ++
      [{ id := s.nextId, role := "user", type := "text", content := prompt }],
      _, _, hEq1, hEq2, rfl, ?_, ?_, ?_, ?_, ?_⟩
    · refine ⟨rfl, ?_, ?_⟩
      · intro m hm
        rw [List.mem_append] at hm
        have hsa : sA.nextId = s.nextId + 1 := by simp [h3n]
        rcases hm with hm | hm
        · have := hIds m hm
          omega
        · simp at hm
          simp [hm, hsa]
      · exact ⟨_, h6, by simp⟩
    · intro x hx
      rw [List.mem_append] at hx
      rcases hx with hx | hx <;> simp at hx <;> exact Or.inl ⟨_, hx⟩
    · simp [h6s, h3s]
    · simp [h6g, h3g]
    · simp [h6m, h3m]
  | none =>
    have hFA2 : findActive (bumpId s) = none := by simp [hFA]
    have hEq1 := addMessage_of_none hFA2
      { id := s.nextId, role := "user", type := "text", content := prompt }
    set sA : AppState :=
      { bumpId s with
          conversations :=
            { id := (bumpId s).nextId
              title := truncateText prompt CONVERSATION_TITLE_MAX_LENGTH
              messages := [{ id := s.nextId, role := "user", type := "text", content := prompt }] }
              :: (bumpId s).conversations
          activeConversationId := some (bumpId s).nextId
          nextId := (bumpId s).nextId + 1 } with hsA
    have hEq1' : addMessageToConversation (bumpId s)
        { id := s.nextId, role := "user", type := "text", content := prompt } =
        ⟨sA, [.saveAll, .save (bumpId s).nextId]⟩ := by
      rw [hEq1, hsA]
      simp
    have h5 : findActive (bumpId sA) = some
        { id := (bumpId s).nextId
          title := truncateText prompt CONVERSATION_TITLE_MAX_LENGTH
          messages := [{ id := s.nextId, role := "user", type := "text", content := prompt }] } := by
      rw [hsA]
      simp [findActive, findConv, List.find?]
    obtain ⟨sB, hEq2, h6, h6a, h6n, h6s, h6g, h6ab, h6m⟩ := addMessage_shape h5
      { id := sA.nextId, role := "ai", type := "text", content := "Generating image..." }
    refine ⟨sA, sB, sA.nextId,
      [{ id := s.nextId, role := "user", type := "text", content := prompt }],
      _, _, hEq1', hEq2, rfl, ?_, ?_, ?_, ?_, ?_⟩
    · refine ⟨rfl, ?_, ?_⟩
      · intro m hm
        simp at hm
        have hsa : sA.nextId = s.nextId + 2 := by rw [hsA]; simp [bumpId]
        simp [hm, hsa]
        omega
      · exact ⟨_, h6, by simp⟩
    · intro x hx
      rw [List.mem_append] at hx
      rcases hx with hx | hx
      · simp at hx
        rcases hx with hx | hx
        · exact Or.inr hx
        · exact Or.inl ⟨_, hx⟩
      · simp at hx
        exact Or.inl ⟨_, hx⟩
    · simp [h6s, hsA]
    · simp [h6g, hsA]
    · simp [h6m, hsA]

/-! ## Claim C6 -/

/-- Does this Pollinations fetch outcome make `generateWithPollinations`
throw? (non-2xx status, missing or non-`image/` content type, or a
transport error). -/
def polFails : PolResult → Bool
  | .response status contentType =>
    !(200 ≤ status && status ≤ 299) ||
      (match contentType with
       | none => true
       | some t => !(jsStarts t "image/"))
  | .transportError _ => true

theorem polFails_attempt (prompt : String) (p : PolResult) (h : polFails p = true) :
    ∃ m, (generateWithPollinations prompt p).2 = .error m := by
  cases p with
  | response status contentType =>
    unfold generateWithPollinations
    by_cases hst : (200 ≤ status && status ≤ 299) = true
    · simp only [polFails, hst] at h
      cases contentType with
      | none => simp [hst]
      | some t =>
        simp only [Bool.not_true, Bool.false_or] at h
        have h2 : jsStarts t "image/" = false := by simpa using h
        simp [hst, h2]
    · simp only [Bool.not_eq_true] at hst
      simp [hst]
  | transportError m => exact ⟨m, rfl⟩

/-- C6 (code_bug): the claimed fallback finalization never happens.  When
the Pollinations provider is selected and its validating fetch fails in any
way, the code does take the fallback branch — the failure toast and the
falling-back toast are emitted — but the session then throws the
`TypeError` of image.js line 85 before the placeholder is patched: the
target message still reads `Generating image...` as a plain `text` message,
instead of becoming the claimed `type = "image"` message carrying the
LoremFlickr URL with `error = false`. -/
theorem C6_fallback_never_applied (s : AppState) (prompt : String) (o : ImageOutcome)
    (hB : idsBounded s) (hProv : s.settings.imageProvider = "pollinations")
    (hFail : polFails o.pol = true) :
    Effect.toast "info" "Pollinations.ai failed, falling back to LoremFlickr..."
      ∈ (generateImage s prompt o).effects ∧
    (generateImage s prompt o).thrown = chatStateTypeErrorMsg ∧
    ∃ aid, (activeMessages (generateImage s prompt o).state).getLast? =
      some { id := aid, role := "ai", type := "text", content := "Generating image...",
             prompt := none, error := false, errorMessage := "" } := by
  obtain ⟨sA, sB, aid, pre, e1, e2, hEq1, hEq2, haid, hT, hSaves, hSet, hGen, hMode⟩ :=
    imageAdds_spec s prompt hB
  obtain ⟨m, hAtt⟩ := polFails_attempt prompt o.pol hFail
  have hprovB : ((setAbort sB (some ())).settings.imageProvider == "pollinations") = true := by
    simp [hSet, hProv]
  subst haid
  obtain ⟨hid, hpre, conv, hC, hM⟩ := hT
  have hC2 : findActive (setAbort sB (some ())) = some conv := by simpa using hC
  refine ⟨?_, rfl, ⟨sA.nextId, ?_⟩⟩
  · simp only [generateImage, freshId]
    simp only [hEq1]
    simp only [hEq2]
    simp only [hprovB, if_true, hAtt]
    simp
  · simp only [generateImage, freshId]
    simp only [hEq1]
    simp only [hEq2]
    simp only [activeMessages, hC2, Option.map_some', Option.getD_some]
    rw [hM]
    simp

/-- Witness for C6: Pollinations returns HTTP 500 with no content type; the
fallback toast fires, the call throws, and the target message is still the
unpatched placeholder. -/
theorem C6_witness :
    idsBounded demoState ∧ demoState.settings.imageProvider = "pollinations" ∧
    polFails (PolResult.response 500 none) = true ∧
    (Effect.toast "info" "Pollinations.ai failed, falling back to LoremFlickr..."
        ∈ (generateImage demoState "a cat" ⟨.response 500 none, .ok none⟩).effects ∧
      (generateImage demoState "a cat" ⟨.response 500 none, .ok none⟩).thrown =
        chatStateTypeErrorMsg ∧
      ∃ aid, (activeMessages (generateImage demoState "a cat"
          ⟨.response 500 none, .ok none⟩).state).getLast? =
        some { id := aid, role := "ai", type := "text", content := "Generating image...",
               prompt := none, error := false, errorMessage := "" }) :=
  ⟨by decide, by decide, by decide,
    C6_fallback_never_applied demoState "a cat" ⟨.response 500 none, .ok none⟩
      (by decide) (by decide) (by decide)⟩

/-! ## Claim C7 -/

/-- C7 (code_bug): with the OpenRouter image provider selected and the
credential (or the image model id) absent, no network request of any kind
is indeed issued and no fallback is attempted — but the claimed error
finalization never happens: the session throws the `TypeError` of image.js
line 85 before the placeholder is patched, so the target message still
reads `Generating image...` with `error = false`, instead of the claimed
finalized `type = "text"`, `error = true` message carrying the
`not configured` error detail. -/
theorem C7_missing_config_never_finalized (s : AppState) (prompt : String) (o : ImageOutcome)
    (hB : idsBounded s) (hProv : s.settings.imageProvider = "openrouter")
    (hMiss : s.settings.openrouterKey = "" ∨ s.settings.imageModel = "") :
    (∀ e ∈ (generateImage s prompt o).effects,
      (∀ u, e ≠ Effect.imageFetch u) ∧ (∀ mo p2, e ≠ Effect.imageApiRequest mo p2) ∧
      (∀ mo ms, e ≠ Effect.chatRequest mo ms)) ∧
    (generateImage s prompt o).thrown = chatStateTypeErrorMsg ∧
    ∃ aid, (activeMessages (generateImage s prompt o).state).getLast? =
      some { id := aid, role := "ai", type := "text", content := "Generating image...",
             prompt := none, error := false, errorMessage := "" } := by
  obtain ⟨sA, sB, aid, pre, e1, e2, hEq1, hEq2, haid, hT, hSaves, hSet, hGen, hMode⟩ :=
    imageAdds_spec s prompt hB
  subst haid
  have hprovP : ((setAbort sB (some ())).settings.imageProvider == "pollinations") = false := by
    simp [hSet, hProv]
  have hprovO : ((setAbort sB (some ())).settings.imageProvider == "openrouter") = true := by
    simp [hSet, hProv]
  obtain ⟨em, hOr⟩ :
      ∃ em, generateWithOpenRouter (setAbort sB (some ())).settings prompt o.openr =
        ([], .error em) := by
    by_cases hk : s.settings.openrouterKey = ""
    · exact ⟨"OpenRouter API key is not configured for image generation.",
        by simp [generateWithOpenRouter, hSet, hk]⟩
    · have hm : s.settings.imageModel = "" := by
        rcases hMiss with h | h
        · exact absurd h hk
        · exact h
      exact ⟨"OpenRouter image model ID is not configured.",
        by simp [generateWithOpenRouter, hSet, hm, hk]⟩
  obtain ⟨hid, hpre, conv, hC, hM⟩ := hT
  have hC2 : findActive (setAbort sB (some ())) = some conv := by simpa using hC
  refine ⟨?_, rfl, ⟨sA.nextId, ?_⟩⟩
  · intro e he
    simp only [generateImage, freshId, hEq1, hEq2, hprovP, hprovO, Bool.false_eq_true,
      if_false, if_true, hOr] at he
    simp at he
    rcases he with he | he | rfl | rfl
    · rcases hSaves e (List.mem_append.mpr (Or.inl he)) with ⟨i, rfl⟩ | rfl <;> simp
    · rcases hSaves e (List.mem_append.mpr (Or.inr he)) with ⟨i, rfl⟩ | rfl <;> simp
    · simp
    · simp
  · simp only [generateImage, freshId]
    simp only [hEq1]
    simp only [hEq2]
    simp only [activeMessages, hC2, Option.map_some', Option.getD_some]
    rw [hM]
    simp

/-- A state whose image provider is OpenRouter but whose key is absent. -/
def orMissState : AppState :=
  { demoState with settings :=
      { demoSettings with imageProvider := "openrouter", openrouterKey := "" } }

/-- An arbitrary image oracle for runs that must not issue requests. -/
def demoImgOutcome : ImageOutcome := ⟨.response 200 (some "image/png"), .ok none⟩

/-- Witness for C7: OpenRouter selected with an empty key: no request of
any kind is issued, the call throws, and the target message is still the
unpatched placeholder. -/
theorem C7_witness :
    idsBounded orMissState ∧ orMissState.settings.imageProvider = "openrouter" ∧
    (orMissState.settings.openrouterKey = "" ∨ orMissState.settings.imageModel = "") ∧
    ((∀ e ∈ (generateImage orMissState "a cat" demoImgOutcome).effects,
      (∀ u, e ≠ Effect.imageFetch u) ∧ (∀ mo p2, e ≠ Effect.imageApiRequest mo p2) ∧
      (∀ mo ms, e ≠ Effect.chatRequest mo ms)) ∧
    (generateImage orMissState "a cat" demoImgOutcome).thrown = chatStateTypeErrorMsg ∧
    (∃ aid, (activeMessages (generateImage orMissState "a cat"
        demoImgOutcome).state).getLast? =
      some { id := aid, role := "ai", type := "text", content := "Generating image...",
             prompt := none, error := false, errorMessage := "" })) :=
  ⟨by decide, by decide, by decide,
    C7_missing_config_never_finalized orMissState "a cat" demoImgOutcome
      (by decide) (by decide) (by decide)⟩

/-! ## Finalization-marker bookkeeping (claim C5) -/

@[simp] theorem filter_isFin_addMessage (s : AppState) (m : Message) :
    ((addMessageToConversation s m).effects).filter Effect.isFin = [] := by
  unfold addMessageToConversation
  split
  · simp [Effect.isFin]
  · simp only [startNewConversation, freshId]
    split <;> simp [Effect.isFin]

@[simp] theorem filter_isFin_updateLast (s : AppState) (mid : Nat) (c : String) (e : Bool)
    (em : String) : ((updateLastMessageContent s mid c e em).effects).filter Effect.isFin = [] := by
  unfold updateLastMessageContent
  split
  · simp
  · split <;> simp [Effect.isFin]

@[simp] theorem filter_isFin_processChunks (aid : Nat) (cs : List String) (s : AppState)
    (acc : String) : ((processChunks s aid acc cs).effects).filter Effect.isFin = [] := by
  rw [List.filter_eq_nil_iff]
  intro x hx
  obtain ⟨i, rfl⟩ := processChunks_effects_save aid cs s acc x hx
  simp [Effect.isFin]

@[simp] theorem filter_isFin_chatStreamPhase (s : AppState) (aid : Nat) (o : ChatOutcome) :
    ((chatStreamPhase s aid o).2).filter Effect.isFin = [] := by
  rw [List.filter_eq_nil_iff]
  intro x hx
  rcases chatStreamPhase_effects s aid o x hx with ⟨i, rfl⟩ | ⟨k, m, rfl⟩ <;>
    simp [Effect.isFin]

@[simp] theorem filter_isFin_pollinations (p : String) (o : PolResult) :
    ((generateWithPollinations p o).1).filter Effect.isFin = [] := by
  simp [generateWithPollinations, Effect.isFin]

@[simp] theorem filter_isFin_openrouterImg (st : Settings) (p : String) (o : OrImgResult) :
    ((generateWithOpenRouter st p o).1).filter Effect.isFin = [] := by
  unfold generateWithOpenRouter
  split
  · simp
  · split <;> simp [Effect.isFin]

/-- `addMessageToConversation` never touches the generation flag. -/
@[simp] theorem addMessage_isGenerating (s : AppState) (m : Message) :
    (addMessageToConversation s m).state.isGenerating = s.isGenerating := by
  unfold addMessageToConversation startNewConversation
  simp only [freshId]
  repeat' split
  all_goals simp

theorem sendChatSetup_cases (s : AppState) (p : String) :
    (∃ r, sendChatSetup s p = .error r ∧ r.effects.filter Effect.isFin = []) ∨
    (∃ t, sendChatSetup s p = .ok t ∧ t.2.2.1.filter Effect.isFin = []) := by
  unfold sendChatSetup
  simp only [freshId]
  repeat' split
  all_goals
    first
    | (left; exact ⟨_, rfl, by simp [Effect.isFin, startNewConversation]⟩)
    | (right; exact ⟨_, rfl, by simp [Effect.isFin, startNewConversation]⟩)

theorem sendChat_filter_isFin (s : AppState) (p : String) (o : ChatOutcome) :
    ((sendChatMessage s p o).effects).filter Effect.isFin = [.finalizedChat] ∨
    ((sendChatMessage s p o).effects).filter Effect.isFin = [] := by
  unfold sendChatMessage
  split
  · right
    simp [Effect.isFin]
  · rcases sendChatSetup_cases s p with ⟨r, hS, hr⟩ | ⟨t, hS, ht⟩
    · right
      simp [hS, hr]
    · left
      obtain ⟨s6, aid, effs, pay⟩ := t
      simp only [hS]
      simp [Effect.isFin, ht]

theorem finSend_notMem_sendChat (s : AppState) (p : String) (o : ChatOutcome) :
    Effect.finalizedSend ∉ (sendChatMessage s p o).effects := by
  intro hm
  have hmf : Effect.finalizedSend ∈ ((sendChatMessage s p o).effects).filter Effect.isFin :=
    List.mem_filter.mpr ⟨hm, rfl⟩
  rcases sendChat_filter_isFin s p o with h | h <;> rw [h] at hmf <;> simp at hmf

theorem finSend_notMem_addMessage (s : AppState) (m : Message) :
    Effect.finalizedSend ∉ (addMessageToConversation s m).effects := by
  intro hm
  have hmf : Effect.finalizedSend ∈ ((addMessageToConversation s m).effects).filter Effect.isFin :=
    List.mem_filter.mpr ⟨hm, rfl⟩
  rw [filter_isFin_addMessage] at hmf
  simp at hmf

theorem count_finSend_addMessage (s : AppState) (m : Message) :
    ((addMessageToConversation s m).effects).count Effect.finalizedSend = 0 :=
  List.count_eq_zero.mpr (finSend_notMem_addMessage s m)

/-! ## Claim C5 -/

/-- C5 (code_bug): the image session breaks the claim — its finalization
runs zero times, not once.  For every state, prompt and provider outcome
(success, failure, or fallback alike) `generateImage` terminates by
throwing the `TypeError` of image.js line 85: the generation-active flag is
left exactly as the caller set it, the cancellation token created at line
50 is still held rather than released, and the emitted effects contain no
finalization marker at all.  (The chat session and the dispatcher do
finalize as claimed — chat.js lines 438-444 and 297-302 — but the claim
quantifies over every session.) -/
theorem C5_image_finalization_crashes (s : AppState) (prompt : String) (o : ImageOutcome) :
    (generateImage s prompt o).thrown = chatStateTypeErrorMsg ∧
    (generateImage s prompt o).state.isGenerating = s.isGenerating ∧
    (generateImage s prompt o).state.abortController = some () ∧
    ((generateImage s prompt o).effects).filter Effect.isFin = [] := by
  refine ⟨rfl, ?_, ?_, ?_⟩
  · unfold generateImage
    simp only [freshId]
    simp
  · unfold generateImage
    simp only [freshId]
    simp
  · unfold generateImage
    simp only [freshId]
    simp only [List.filter_append, filter_isFin_addMessage]
    repeat' split
    all_goals simp [Effect.isFin]

/-- An arbitrary send oracle for concrete runs. -/
def demoSendOutcome : SendOutcome := ⟨.ok "hi", .httpError "x", demoImgOutcome⟩

/-- A state with a generation in flight. -/
def busyState : AppState := { demoState with isGenerating := true, abortController := some () }

/-! ## Claim C4 -/

/-- C4: a send issued while the generation-active flag is set is rejected
with a single warning toast and performs no state change at all — in
particular no token is created and no conversation or message is touched
(the empty-input warning fires first when the input is blank, still with no
state change). -/
theorem C4_busy_send_rejected (s : AppState) (input : String) (o : SendOutcome)
    (h : s.isGenerating = true) :
    (handleSendMessage s input o).state = s ∧
    ((handleSendMessage s input o).effects =
        [.toast "warning" "Please wait for the current generation to complete or stop it."] ∨
      (handleSendMessage s input o).effects =
        [.toast "warning" "Please enter a message or prompt."]) := by
  unfold handleSendMessage
  by_cases hp : (jsTrim input == "") = true
  · simp [hp]
  · simp [hp, h]

/-- Witness for C4 with the flag set and non-blank input. -/
theorem C4_witness :
    busyState.isGenerating = true ∧
    ((handleSendMessage busyState "hi" demoSendOutcome).state = busyState ∧
    ((handleSendMessage busyState "hi" demoSendOutcome).effects =
        [.toast "warning" "Please wait for the current generation to complete or stop it."] ∨
      (handleSendMessage busyState "hi" demoSendOutcome).effects =
        [.toast "warning" "Please enter a message or prompt."])) :=
  ⟨by decide, C4_busy_send_rejected busyState "hi" demoSendOutcome (by decide)⟩

/-! ## Claim C10 -/

/-- C10: a send whose input is empty or whitespace-only after trimming is a
complete no-op apart from one warning toast: the state — conversations,
messages, generation flag, abort controller — is returned unchanged and no
request, save or token-creation effect is emitted. -/
theorem C10_blank_input_noop (s : AppState) (input : String) (o : SendOutcome)
    (h : jsTrim input = "") :
    handleSendMessage s input o =
      ⟨s, [.toast "warning" "Please enter a message or prompt."]⟩ := by
  unfold handleSendMessage
  simp [h]

/-- Witness for C10 on whitespace-only input. -/
theorem C10_witness :
    jsTrim "  \t " = "" ∧
    handleSendMessage demoState "  \t " demoSendOutcome =
      ⟨demoState, [.toast "warning" "Please enter a message or prompt."]⟩ :=
  ⟨by decide, C10_blank_input_noop demoState "  \t " demoSendOutcome (by decide)⟩

/-- Witness for C9 at a concrete state (fresh conversation path). -/
theorem C9_witness :
    idsBounded demoState ∧ activeOk demoState ∧ demoState.settings.openrouterKey ≠ "" ∧
    (∃ uid,
      (sendChatMessage demoState "Hello" (.httpError "boom")).effects.filter Effect.isChatReq =
        [Effect.chatRequest demoState.settings.modelId
          (("system", demoState.settings.systemPrompt) ::
            (((historyBase demoState ++ [userMsg uid "Hello"]).filter
                (fun m => m.type == "text")).map
              (fun m => (m.role, m.content)) ++ [("user", "Hello")]))]) :=
  ⟨by decide, by decide, by decide,
    C9_outbound_payload demoState "Hello" (.httpError "boom")
      (by decide) (by decide) (by decide)⟩

/-! ## Claim C8 -/

theorem eq_dropLast_append_getLast {l : List α} {a : α} (h : l.getLast? = some a) :
    l = l.dropLast ++ [a] := by
  induction l with
  | nil => simp at h
  | cons x xs ih =>
    cases xs with
    | nil => simp_all
    | cons y ys =>
      rw [List.getLast?_cons_cons] at h
      have := ih h
      simp [List.dropLast_cons_of_ne_nil]
      conv_lhs => rw [this]

theorem updateFirstConv_congr {cs : List Conversation} {cid : Nat}
    {f g : Conversation → Conversation}
    (h : ∀ c, cs.find? (fun x => x.id == cid) = some c → f c = g c) :
    updateFirstConv cs cid f = updateFirstConv cs cid g := by
  induction cs with
  | nil => rfl
  | cons hd tl ih =>
    by_cases hhd : (hd.id == cid) = true
    · simp only [updateFirstConv, hhd, if_true]
      rw [h hd (by simp [List.find?, hhd])]
    · simp only [updateFirstConv, hhd]
      simp only [Bool.false_eq_true, if_false]
      rw [ih]
      intro c hc
      exact h c (by simp [List.find?, hhd]; exact hc)

theorem findActive_mem {s : AppState} {conv : Conversation}
    (h : findActive s = some conv) : conv ∈ s.conversations := by
  unfold findActive at h
  cases hCid : s.activeConversationId with
  | none => rw [hCid] at h; simp at h
  | some cid =>
    rw [hCid] at h
    exact List.mem_of_find?_eq_some h

theorem C8_regenerate (s : AppState) (o : ChatOutcome) :
    (∀ conv last u, s.isGenerating = false → msgIdsNodup s →
      findActive s = some conv → 2 ≤ conv.messages.length →
      conv.messages.getLast? = some last → last.role = "ai" →
      conv.messages.reverse.find? (fun m => m.role == "user" && m.type == "text") = some u →
      regenerateResponse s o =
        ⟨setGenerating (sendChatMessage
            (setGenerating (updateActiveConv s
              (fun c => { c with messages := c.messages.dropLast })) true)
            u.content o).state false,
          [.save conv.id, .toast "info" "Regenerating AI response..."] ++
            (sendChatMessage (setGenerating (updateActiveConv s
              (fun c => { c with messages := c.messages.dropLast })) true)
              u.content o).effects⟩) ∧
    (s.isGenerating = false →
      (findActive s = none ∨ ∃ conv, findActive s = some conv ∧ conv.messages.length < 2) →
      regenerateResponse s o = ⟨s, [.toast "info" "No previous AI response to regenerate."]⟩) := by
  constructor
  · intro conv last u hGen hN hFA hLen hLast hRole hU
    have hDecomp : conv.messages = conv.messages.dropLast ++ [last] :=
      eq_dropLast_append_getLast hLast
    have hNodup : (conv.messages.map Message.id).Nodup := hN conv (findActive_mem hFA)
    have hpre : ∀ m ∈ conv.messages.dropLast, m.id ≠ last.id := by
      intro m hm hEq
      rw [hDecomp] at hNodup
      simp [List.nodup_append] at hNodup
      apply hNodup.2
      rw [← hEq]
      have hmm : m.id ∈ List.map Message.id conv.messages.dropLast := List.mem_map_of_mem _ hm
      simpa [List.map_dropLast] using hmm
    have hFind : jsFindIdx
        (fun (m : Message) => some last.id == some m.id && m.role == "ai")
        conv.messages = some conv.messages.dropLast.length := by
      conv_lhs => rw [hDecomp]
      apply jsFindIdx_append_last
      · intro x hx
        have hxid : (x.id == last.id) = false := beq_eq_false_iff_ne.mpr (hpre x hx)
        simp only [Bool.and_eq_false_iff]
        left
        apply beq_eq_false_iff_ne.mpr
        intro hcon
        apply hpre x hx
        have : last.id = x.id := by simpa using hcon
        exact this.symm
      · simp [hRole]
    unfold regenerateResponse
    simp only [hGen, Bool.false_eq_true, if_false, hFA]
    have hLt : ¬(conv.messages.length < 2) := by omega
    simp only [if_neg hLt, hU, hLast, Option.map_some, Option.map_some', hFind]
    have hRemove : updateActiveConv s
        (fun c => { c with messages := removeAt c.messages conv.messages.dropLast.length }) =
        updateActiveConv s (fun c => { c with messages := c.messages.dropLast }) := by
      unfold updateActiveConv
      cases hCid : s.activeConversationId with
      | none => rfl
      | some cid =>
        have hFC : findConv s cid = some conv := by
          unfold findActive at hFA
          rw [hCid] at hFA
          exact hFA
        dsimp only
        congr 1
        apply updateFirstConv_congr
        intro c hc
        have : c = conv := by
          unfold findConv at hFC
          rw [hc] at hFC
          exact (Option.some.injEq _ _).mp hFC
        subst this
        have hra : removeAt c.messages c.messages.dropLast.length = c.messages.dropLast := by
          nth_rewrite 1 [hDecomp]
          rw [removeAt_append_last]
        rw [hra]
    rw [hRemove]
    rfl
  · intro hGen hEmpty
    unfold regenerateResponse
    simp only [hGen, Bool.false_eq_true, if_false]
    rcases hEmpty with h | ⟨conv, hFA, hLen⟩
    · simp [h]
    · simp [hFA, hLen]

/-- A state holding one conversation with a user turn and an assistant
reply. -/
def regenState : AppState :=
  { conversations := [{ id := 5, title := "t", messages :=
      [{ id := 1, role := "user", type := "text", content := "hi" },
       { id := 2, role := "ai", type := "text", content := "yo" }] }]
    activeConversationId := some 5, mode := "chat", isGenerating := false
    abortController := none, settings := demoSettings, nextId := 10 }

/-- Witness for C8: regeneration removes the final assistant message and
resends the user prompt; on an empty state it is a no-op. -/
theorem C8_witness :
    (regenerateResponse regenState (.httpError "x") =
      ⟨setGenerating (sendChatMessage (setGenerating (updateActiveConv regenState
          (fun c => { c with messages := c.messages.dropLast })) true)
          "hi" (.httpError "x")).state false,
        [.save 5, .toast "info" "Regenerating AI response..."] ++
          (sendChatMessage (setGenerating (updateActiveConv regenState
            (fun c => { c with messages := c.messages.dropLast })) true)
            "hi" (.httpError "x")).effects⟩) ∧
    (regenerateResponse demoState (.httpError "x") =
      ⟨demoState, [.toast "info" "No previous AI response to regenerate."]⟩) :=
  ⟨(C8_regenerate regenState (.httpError "x")).1
      { id := 5, title := "t", messages :=
        [{ id := 1, role := "user", type := "text", content := "hi" },
         { id := 2, role := "ai", type := "text", content := "yo" }] }
      { id := 2, role := "ai", type := "text", content := "yo" }
      { id := 1, role := "user", type := "text", content := "hi" }
      (by decide) (by decide) (by decide) (by decide) (by decide) (by decide) (by decide),
    (C8_regenerate demoState (.httpError "x")).2 (by decide) (Or.inl (by decide))⟩

/-! ## Claim C3 -/

/-- Does the character list contain two consecutive newlines? -/
def hasSep : List Char → Bool
  | [] => false
  | [_] => false
  | c :: d :: rest => if c = '\n' ∧ d = '\n' then true else hasSep (d :: rest)

/-- A well-formed event text: it contains no double-newline delimiter and
does not end in a newline (so that appending the delimiter cannot create an
earlier delimiter occurrence). -/
def eventWf (e : String) : Bool := !(hasSep (e.data ++ ['\n']))

theorem hasSep_cons_false {c : Char} {l : List Char}
    (h : hasSep (c :: l) = false) : hasSep l = false := by
  cases l with
  | nil => rfl
  | cons d rest =>
    by_cases hcd : c = '\n' ∧ d = '\n'
    · simp [hasSep, hcd] at h
    · simpa [hasSep, hcd] using h

theorem splitSep_sep_append (b : List Char) : ∀ (a : List Char),
    hasSep (a ++ ['\n']) = false →
    splitSep (a ++ '\n' :: '\n' :: b) = a :: splitSep b := by
  intro a
  induction a with
  | nil =>
    intro _
    simp [splitSep]
  | cons c a' ih =>
    intro h
    cases a' with
    | nil =>
      have hc : ¬(c = '\n') := by
        intro hc
        simp [hasSep, hc] at h
      simp only [List.nil_append, List.cons_append]
      rw [show splitSep (c :: '\n' :: '\n' :: b) =
          if c = '\n' ∧ '\n' = '\n' then [] :: splitSep ('\n' :: b)
          else match splitSep ('\n' :: '\n' :: b) with
            | [] => [[c]]
            | h :: t => (c :: h) :: t from rfl]
      rw [if_neg (by simp [hc])]
      rw [show splitSep ('\n' :: '\n' :: b) = [] :: splitSep b from by
        rw [show splitSep ('\n' :: '\n' :: b) =
            if ('\n' : Char) = '\n' ∧ ('\n' : Char) = '\n' then [] :: splitSep b
            else match splitSep ('\n' :: b) with
              | [] => [['\n']]
              | h :: t => ('\n' :: h) :: t from rfl]
        rw [if_pos ⟨rfl, rfl⟩]]
    | cons d a'' =>
      have hcd : ¬(c = '\n' ∧ d = '\n') := by
        intro hcd
        simp [hasSep, hcd] at h
      have h2 : hasSep ((d :: a'') ++ ['\n']) = false := by
        apply hasSep_cons_false (c := c)
        simpa using h
      have ih2 := ih h2
      simp only [List.cons_append]
      rw [show splitSep (c :: d :: (a'' ++ '\n' :: '\n' :: b)) =
          if c = '\n' ∧ d = '\n' then [] :: splitSep (a'' ++ '\n' :: '\n' :: b)
          else match splitSep (d :: (a'' ++ '\n' :: '\n' :: b)) with
            | [] => [[c]]
            | h :: t => (c :: h) :: t from rfl]
      rw [if_neg hcd]
      simp only [List.cons_append] at ih2
      rw [ih2]

/-- One physical chunk consisting of whole delimiter-terminated events. -/
def chunkOfEvents (es : List String) : String :=
  joinAll (es.map (fun e => e ++ "\n\n"))

theorem strMk_data (s : String) : String.mk s.data = s := by
  cases s; rfl

theorem splitSep_chunkOfEvents (es : List String) (h : ∀ e ∈ es, eventWf e = true) :
    splitSep ((chunkOfEvents es).data) = es.map String.data ++ [[]] := by
  induction es with
  | nil => rfl
  | cons e es ih =>
    have hwf : hasSep (e.data ++ ['\n']) = false := by
      have := h e (by simp)
      simpa [eventWf] using this
    have hdata : (chunkOfEvents (e :: es)).data =
        e.data ++ '\n' :: '\n' :: (chunkOfEvents es).data := by
      show ((e ++ "\n\n") ++ chunkOfEvents es).data = _
      rw [strData_append, strData_append]
      rw [show ("\n\n" : String).data = ['\n', '\n'] from by decide]
      simp [List.append_assoc]
    rw [hdata, splitSep_sep_append _ _ hwf, ih (fun x hx => h x (by simp [hx]))]
    rfl

theorem partDelta_empty : partDelta "" = none := by decide

theorem chunkDeltas_chunkOfEvents (es : List String) (h : ∀ e ∈ es, eventWf e = true) :
    chunkDeltas (chunkOfEvents es) = es.filterMap partDelta := by
  unfold chunkDeltas jsSplitEvents
  rw [splitSep_chunkOfEvents es h]
  rw [List.map_append, List.filterMap_append]
  have h1 : (List.map String.mk (es.map String.data)) = es := by
    rw [List.map_map]
    have : (String.mk ∘ String.data) = id := by
      funext x
      exact strMk_data x
    rw [this, List.map_id]
  simp only [h1]
  have h2 : List.filterMap partDelta (List.map String.mk [[]]) = [] := by
    decide
  rw [h2, List.append_nil]

/-- C3 as written is false on the code: there is no carry-over buffer, so
re-chunking the same event text can change the decoded deltas.  Splitting
the single event `data: {...}` after two characters makes both fragments
fail the `data: ` test, and its delta is silently dropped. -/
theorem C3_counterexample :
    joinAll ["da", "ta: \x7b\"choices\":[\x7b\"delta\":\x7b\"content\":\"Hi\"\x7d\x7d]\x7d\n\n"] =
      joinAll ["data: \x7b\"choices\":[\x7b\"delta\":\x7b\"content\":\"Hi\"\x7d\x7d]\x7d\n\n"] ∧
    streamDeltas ["da", "ta: \x7b\"choices\":[\x7b\"delta\":\x7b\"content\":\"Hi\"\x7d\x7d]\x7d\n\n"] ≠
      streamDeltas ["data: \x7b\"choices\":[\x7b\"delta\":\x7b\"content\":\"Hi\"\x7d\x7d]\x7d\n\n"] := by
  constructor
  · decide
  · decide

/-- C3 (amended): decoding is invariant only under event-aligned
re-chunking.  For every grouping of well-formed delimiter-terminated events
into physical chunks, the decoded delta sequence equals the decode of the
flat event list — independent of the grouping — because each chunk is split
on the double newline independently; splitting an event across two chunks
is not covered and can drop its delta (there is no carry-over buffer). -/
theorem C3_eventAligned_invariance (ess : List (List String))
    (h : ∀ es ∈ ess, ∀ e ∈ es, eventWf e = true) :
    streamDeltas (ess.map chunkOfEvents) = (ess.flatten).filterMap partDelta := by
  induction ess with
  | nil => rfl
  | cons es ess ih =>
    simp only [List.map_cons, streamDeltas, List.flatMap_cons, List.flatten_cons,
      List.filterMap_append]
    rw [chunkDeltas_chunkOfEvents es (h es (by simp))]
    have ih2 := ih (fun x hx e he => h x (by simp [hx]) e he)
    unfold streamDeltas at ih2
    rw [ih2]

/-- Witness for the amended C3: two events grouped as two chunks decode the
same as the flat event list. -/
theorem C3_witness :
    (∀ es ∈ [["data: \x7b\"choices\":[\x7b\"delta\":\x7b\"content\":\"Hi\"\x7d\x7d]\x7d"],
        ["data: \x7b\"choices\":[\x7b\"delta\":\x7b\"content\":\" there\"\x7d\x7d]\x7d", "data: [DONE]"]],
      ∀ e ∈ es, eventWf e = true) ∧
    streamDeltas ([["data: \x7b\"choices\":[\x7b\"delta\":\x7b\"content\":\"Hi\"\x7d\x7d]\x7d"],
        ["data: \x7b\"choices\":[\x7b\"delta\":\x7b\"content\":\" there\"\x7d\x7d]\x7d",
         "data: [DONE]"]].map chunkOfEvents) =
      ([["data: \x7b\"choices\":[\x7b\"delta\":\x7b\"content\":\"Hi\"\x7d\x7d]\x7d"],
        ["data: \x7b\"choices\":[\x7b\"delta\":\x7b\"content\":\" there\"\x7d\x7d]\x7d",
         "data: [DONE]"]].flatten).filterMap partDelta :=
  ⟨by decide,
    C3_eventAligned_invariance
      [["data: \x7b\"choices\":[\x7b\"delta\":\x7b\"content\":\"Hi\"\x7d\x7d]\x7d"],
       ["data: \x7b\"choices\":[\x7b\"delta\":\x7b\"content\":\" there\"\x7d\x7d]\x7d", "data: [DONE]"]]
      (by decide)⟩
